import Mathlib

/-!
Ardour auditioner: a shallow embedding of `libs/ardour/auditioner.cc`.

The auditioner is the preview-playback track of Ardour.  This file embeds
its state and the operations `lookup_synth`, `config_changed`, `roll`,
`prepare_playlist`, `audition_region`, `play_audition` and `output_changed`
as pure functions over an explicit state record, and proves properties of
them.  The button state machine `FP8ButtonBase::midi_event` of the FaderPort8
surface (`fp8_button.h`) is embedded the same way.

Conventions of the embedding.

* `framepos_t`, `framecnt_t` and `frameoffset_t` are 64-bit signed integers in
  the source.  Signed overflow is undefined behaviour there and frame counts
  stay far below `2^63`, so they are embedded as `Int`.
* Every call into a collaborator (disk reader, session, processing chain,
  signals, the diagnostic streams) is recorded, in program order, in the
  `log` field of the state.  A property such as "never calls roll" is a
  property of the events a call appends to the log.
* The outcome of a collaborator call that the auditioner branches on (the
  try-lock in `roll`, `find_plugin`, `add_processor`, `configure_processors`,
  `Region::sync_offset`) is a parameter of the embedding.
-/

namespace Ardour

/-! ## Data model -/

/-- The dynamic type of a region, as tested by the two `dynamic_pointer_cast`s
of `audition_region`. -/
inductive RegionKind where
  | audio
  | midi
  | other
  deriving DecidableEq, Repr

/-- What `audition_region` reads from a region: its dynamic type,
`position()`, `length()`, `n_channels()` and the two results of
`sync_offset (dir)` (the returned offset and the direction written to `dir`),
which is defined in `region.cc`. -/
structure Region where
  kind : RegionKind
  position : Int
  length : Int
  sync_offset : Int
  sync_dir : Int
  n_channels : Nat
  deriving DecidableEq, Repr

/-- An element of the route's processor list.  A `PluginInsert` carries the
serial number of its construction, so two inserts of the same plugin are
different processors. -/
inductive Processor where
  | plugin_insert (serial : Nat) (uri : String)
  | delivery
  | other
  deriving DecidableEq, Repr

/-- The observable collaborator calls, in the order the code makes them. -/
inductive Event where
  | silence (nframes : Int)
  | roll_call (nframes start_frame end_frame : Int)
  | midi_push_back (time size : Nat) (data : List Nat)
  | process_output_buffers (start_frame end_frame nframes : Int)
  | flush_buffers (nframes : Int)
  | reset_tracker
  | disk_seek (frame : Int)
  | session_cancel_audition
  | AuditionProgress (pos len : Int)
  | find_plugin_call (uri : String)
  | remove_processor_call (p : Option Processor)
  | add_processor_call (p : Processor)
  | configure_processors_call
  | reset_panner
  | error_msg (msg : String)
  | warning_msg (msg : String)
  deriving DecidableEq, Repr

/-- The three configuration strings the auditioner reads and writes through
`Config`. -/
structure Config where
  midi_audition_synth_uri : String
  auditioner_output_left : String
  auditioner_output_right : String
  deriving DecidableEq, Repr

/-- Outcomes of the collaborator calls made while staging a region:
whether `find_plugin` resolves an identifier, and the return values of
`add_processor` and `configure_processors`. -/
structure Env where
  find_plugin : String → Bool
  add_processor_rv : Int
  configure_processors_rv : Int

/-- The member variables of `Auditioner` (with the initial values of its
constructor, see `Auditioner.construct`), the configuration object, the
route's processor list and the event log. -/
structure Auditioner where
  current_frame : Int
  _auditioning : Int
  length : Int
  _seek_frame : Int
  _seeking : Bool
  _seek_complete : Bool
  via_monitor : Bool
  _midi_audition : Bool
  _synth_added : Bool
  _synth_changed : Bool
  _queue_panic : Bool
  _import_position : Int
  asynth : Option Processor
  the_region : Option Region
  midi_region : Option Region
  _processors : List Processor
  config : Config
  next_serial : Nat
  log : List Event
  deriving DecidableEq, Repr

/-- The constructor `Auditioner::Auditioner`; the configuration and the
processor list set up by `Track` are parameters. -/
def Auditioner.construct (cfg : Config) (procs : List Processor) : Auditioner :=
  { current_frame := 0
    _auditioning := 0
    length := 0
    _seek_frame := -1
    _seeking := false
    _seek_complete := false
    via_monitor := false
    _midi_audition := false
    _synth_added := false
    _synth_changed := false
    _queue_panic := false
    _import_position := 0
    asynth := none
    the_region := none
    midi_region := none
    _processors := procs
    config := cfg
    next_serial := 0
    log := [] }

/-- Append one event to the log. -/
def Auditioner.emit (s : Auditioner) (e : Event) : Auditioner :=
  { s with log := s.log ++ [e] }

/-- The events a call appended to the log, given the state before and after. -/
def emitted (before after : Auditioner) : List Event :=
  after.log.drop before.log.length

/-! ## Collaborators -/

/-- The status byte of a control change, from `midi_events.h`. -/
def MIDI_CMD_CONTROL : Nat := 0xB0

/-- Controller number of the sustain pedal, from `midi_events.h`. -/
def MIDI_CTL_SUSTAIN : Nat := 0x40

/-- Controller number of all-notes-off, from `midi_events.h`. -/
def MIDI_CTL_ALL_NOTES_OFF : Nat := 0x7B

/-- Controller number of reset-all-controllers, from `midi_events.h`. -/
def MIDI_CTL_RESET_CONTROLLERS : Nat := 0x79

/-- The route's `silence (nframes)`. -/
def silence (nframes : Int) (s : Auditioner) : Auditioner :=
  s.emit (.silence nframes)

/-- Modelled from the spec: `Auditioner::cancel_audition` is declared in
`auditioner.h`, which is not among the sources; the spec calls it the
internal cancel that takes the engine out of playing, so it clears
`_auditioning`. -/
def cancel_audition (s : Auditioner) : Auditioner :=
  { s with _auditioning := 0 }

/-- Modelled from the spec: `Session::cancel_audition` is defined in
`session.cc`, which is not among the sources; the spec says the roller
"signals completion and returns to Idle", so the call is logged and
`_auditioning` is cleared. -/
def session_cancel_audition (s : Auditioner) : Auditioner :=
  { s.emit .session_cancel_audition with _auditioning := 0 }

/-! ## `Auditioner::roll` -/

/-- The conversion of a `framecnt_t` (64-bit signed) to `pframes_t`
(`uint32_t`), as it happens when a frame count is passed for the `nframes`
parameter of `roll`: the value modulo `2^32`. -/
def to_pframes_t (n : Int) : Int := n % 4294967296

/-- One iteration of the panic loop of `roll`: three `push_back (0, 3, buf)`
calls, `buf[1]` being overwritten between them. -/
def roll_panic_body (s : Auditioner) (chn : Nat) : Auditioner :=
  let b0 := (MIDI_CMD_CONTROL ||| chn) % 256
  let s1 := s.emit (.midi_push_back 0 3 [b0, MIDI_CTL_SUSTAIN % 256, 0])
  let s2 := s1.emit (.midi_push_back 0 3 [b0, MIDI_CTL_ALL_NOTES_OFF % 256, 0])
  s2.emit (.midi_push_back 0 3 [b0, MIDI_CTL_RESET_CONTROLLERS % 256, 0])

/-- The loop `for (uint8_t chn = 0; chn < 0xf; ++chn)` of `roll`. -/
def roll_panic_loop (s : Auditioner) : Auditioner :=
  (List.range 0xf).foldl roll_panic_body s

/-- The loop over `_processors` at the end of `roll`: every `Delivery`
flushes its buffers. -/
def roll_flush (nframes : Int) (s : Auditioner) : Auditioner :=
  s._processors.foldl
    (fun acc p => if p = Processor.delivery then acc.emit (.flush_buffers nframes) else acc) s

/-- The function `Auditioner::roll`.  `locked` is the outcome of the
`TRY_LOCK` on `_processor_lock`.  The reference parameter `need_butler` is
never written by `roll` and is left out; `_silent` and the gain automation
flag belong to the route and are not tracked, and `assert (_active)` is a
debug-build check of route state.  The parameter `nframes` is a `pframes_t`:
callers pass a value in `[0, 2^32)`, see `to_pframes_t`. -/
def roll (locked : Bool) (s : Auditioner) (nframes start_frame end_frame : Int) :
    Auditioner × Int :=
  let s0 := s.emit (.roll_call nframes start_frame end_frame)
  if !locked then
    (s0, 0)
  else
    let s1 := if s0._queue_panic then roll_panic_loop { s0 with _queue_panic := false } else s0
    let s2 := s1.emit (.process_output_buffers start_frame end_frame nframes)
    (roll_flush nframes s2, 0)

/-! ## `Auditioner::play_audition` -/

/-- Lines 419-424: a completed seek is acknowledged. -/
def play_audition_resume (s : Auditioner) : Auditioner :=
  if s._seeking && s._seek_complete then
    ({ s with _seek_complete := false, _seeking := false, _seek_frame := -1 }).emit .reset_tracker
  else
    s

/-- Lines 426-439: process audio or emit silence.  The second component is
`some ret` when `roll` failed and `play_audition` returns `ret` at once.
The local `this_nframes` is a `framecnt_t`; it is narrowed to `pframes_t`
where it is passed to `roll` and added unchanged to `current_frame`. -/
def play_audition_process (locked : Bool) (s : Auditioner) (nframes : Int) :
    Auditioner × Option Int :=
  if !s._seeking then
    let this_nframes := min nframes (s.length - s.current_frame + s._import_position)
    let r := roll locked s (to_pframes_t this_nframes) s.current_frame
      (s.current_frame + nframes)
    if r.2 ≠ 0 then
      (silence nframes r.1, some r.2)
    else
      ({ r.1 with current_frame := r.1.current_frame + this_nframes }, none)
  else
    (silence nframes s, none)

/-- Lines 441-446: a pending seek request is taken up.  The second component
is the local `need_butler`. -/
def play_audition_seek (s : Auditioner) : Auditioner × Bool :=
  if decide (s._seek_frame ≥ 0) && decide (s._seek_frame < s.length) && !s._seeking then
    ({ s with _queue_panic := true, _seek_complete := false, _seeking := true }, true)
  else
    (s, false)

/-- Lines 448-457: progress signal, end-of-region test and return value. -/
def play_audition_finish (s : Auditioner) (need_butler : Bool) : Auditioner × Int :=
  let s1 := if !s._seeking then
      s.emit (.AuditionProgress (s.current_frame - s._import_position) s.length)
    else s
  if s1.current_frame ≥ s1.length + s1._import_position then
    (session_cancel_audition s1, 0)
  else
    (s1, if need_butler then 1 else 0)

/-- The function `Auditioner::play_audition`; `locked` is the outcome of the
try-lock inside `roll` on this tick. -/
def play_audition (locked : Bool) (s : Auditioner) (nframes : Int) : Auditioner × Int :=
  if s._auditioning = 0 then
    (silence nframes s, 0)
  else
    let p := play_audition_process locked (play_audition_resume s) nframes
    match p.2 with
    | some ret => (p.1, ret)
    | none =>
      let q := play_audition_seek p.1
      play_audition_finish q.1 q.2

/-! ## Synth lookup and configuration -/

/-- The collaborator `find_plugin (_session, uri, LV2)`: the call is logged
and the plugin, identified by its uri, is returned when `env` resolves it. -/
def find_plugin (env : Env) (s : Auditioner) (uri : String) : Auditioner × Option String :=
  (s.emit (.find_plugin_call uri), if env.find_plugin uri then some uri else none)

/-- The function `Auditioner::lookup_synth`. -/
def lookup_synth (env : Env) (s : Auditioner) : Auditioner :=
  let plugin_id := s.config.midi_audition_synth_uri
  let s0 := { s with asynth := none }
  if plugin_id ≠ "" then
    let r1 := find_plugin env s0 plugin_id
    let r :=
      if r1.2.isNone then
        let r2 := find_plugin env r1.1 "http://gareus.org/oss/lv2/gmsynth"
        let r3 :=
          if r2.2.isNone then find_plugin env r2.1 "https://community.ardour.org/node/7596"
          else r2
        if r3.2.isSome then
          (r3.1.emit (.warning_msg "Falling back to Reasonable Synth for Midi Audition"), r3.2)
        else
          let w := r3.1.emit (.warning_msg "No synth for midi-audition found.")
          ({ w with config := { w.config with midi_audition_synth_uri := "" } }, r3.2)
      else r1
    match r.2 with
    | some uri =>
      { r.1 with asynth := some (.plugin_insert r.1.next_serial uri)
                 next_serial := r.1.next_serial + 1 }
    | none => r.1
  else
    s0

/-- The function `Auditioner::config_changed`. -/
def config_changed (s : Auditioner) (p : String) : Auditioner :=
  if p = "midi-audition-synth-uri" then { s with _synth_changed := true } else s

/-- Modelled from the spec: `Route::remove_processor` is defined in
`route.cc`, which is not among the sources; the spec's `remove(processor)`
takes the processor out of the chain. -/
def remove_processor (p : Option Processor) (s : Auditioner) : Auditioner :=
  { s.emit (.remove_processor_call p) with
    _processors := s._processors.filter (fun q => decide (some q ≠ p)) }

/-- Modelled from the spec: `Route::add_processor` is defined in `route.cc`,
which is not among the sources; the spec's `add` inserts the processor at
the front of the pre-fader position, or fails and leaves the chain as it
was.  The return value is `env.add_processor_rv`. -/
def add_processor (env : Env) (p : Processor) (s : Auditioner) : Auditioner × Int :=
  let s1 := s.emit (.add_processor_call p)
  if env.add_processor_rv = 0 then
    ({ s1 with _processors := p :: s1._processors }, 0)
  else
    (s1, env.add_processor_rv)

/-- The collaborator `configure_processors (&ps)`: logged, its return value
is `env.configure_processors_rv`. -/
def configure_processors (env : Env) (s : Auditioner) : Auditioner × Int :=
  (s.emit .configure_processors_call, env.configure_processors_rv)

/-- The function `Auditioner::prepare_playlist` (the returned playlist
reference is not part of the state). -/
def prepare_playlist (s : Auditioner) : Auditioner :=
  let s1 := { s with _midi_audition := false }
  if s1._synth_added then
    { remove_processor s1.asynth s1 with _synth_added := false }
  else
    s1

/-! ## `Auditioner::audition_region` -/

/-- The diagnostic of a failed `configure_processors`. -/
def configure_error (region : Region) : Event :=
  .error_msg ("Cannot setup auditioner processing flow for " ++ toString region.n_channels
    ++ " channels")

/-- The region copy that lines 379-385 read: `midi_region` for a MIDI
audition, `the_region` otherwise. -/
def staged_region (s : Auditioner) : Option Region :=
  if s._midi_audition then s.midi_region else s.the_region

/-- Lines 370-396 of `audition_region`: panner reset, seek state, start
offset, disk seek and the switch to auditioning.  Both branches that reach
these lines have just assigned the region copy, so the `none` case stands for
a null dereference that cannot occur. -/
def audition_region_start (s : Auditioner) : Auditioner :=
  let s1 := s.emit .reset_panner
  let s2 := { s1 with _seek_frame := -1, _seeking := false }
  match staged_region s2 with
  | none => s2
  | some r =>
    let s3 := { s2 with length := r.length }
    let offset0 : Int := if s3._midi_audition then s3._import_position + r.sync_offset else r.sync_offset
    let dir : Int := r.sync_dir
    let offset : Int := if dir < 0 then 0 else offset0
    let s4 := s3.emit (.disk_seek offset)
    { s4 with current_frame := offset, _auditioning := 1 }

/-- Lines 290-317: the branch for an `AudioRegion`.  The copy of the region
is what the state keeps of the playlist operations. -/
def audition_region_audio (env : Env) (s : Auditioner) (region : Region) : Auditioner :=
  let s1 := { s with _midi_audition := false }
  let s2 := if s1._synth_added then { remove_processor s1.asynth s1 with _synth_added := false }
    else s1
  let s3 := { s2 with midi_region := none, _import_position := 0 }
  let s4 := { s3 with the_region := some { region with position := 0 } }
  let c := configure_processors env s4
  if c.2 ≠ 0 then
    c.1.emit (configure_error region)
  else
    audition_region_start c.1

/-- Lines 320-342 of the `MidiRegion` branch: the region copy is staged, the
note tracker reset, and a stale synth is dropped and looked up again. -/
def audition_region_midi_setup (env : Env) (s : Auditioner) (region : Region) : Auditioner :=
  let s1 := { s with _midi_audition := true }
  let s2 := { s1 with the_region := none, _import_position := region.position }
  let s3 := { s2 with midi_region := some { region with position := s2._import_position } }
  let s4 := s3.emit .reset_tracker
  let s5 := if s4._synth_changed && s4._synth_added then
      { remove_processor s4.asynth s4 with _synth_added := false }
    else s4
  if s5._synth_changed && !s5._synth_added then
    lookup_synth env { s5 with _synth_added := false }
  else s5

/-- Lines 344-353 of the `MidiRegion` branch: the synth is inserted when it
is not in the chain yet, otherwise a panic is queued. -/
def audition_region_midi_insert (env : Env) (s : Auditioner) : Auditioner :=
  match s.asynth with
  | some p =>
    if !s._synth_added then
      let a := add_processor env p s
      if a.2 ≠ 0 then
        a.1.emit (.error_msg "Failed to load synth for MIDI-Audition.")
      else
        { a.1 with _synth_added := true }
    else
      { s with _queue_panic := true }
  | none => { s with _queue_panic := true }

/-- Lines 319-363: the branch for a `MidiRegion`. -/
def audition_region_midi (env : Env) (s : Auditioner) (region : Region) : Auditioner :=
  let s7 := audition_region_midi_insert env (audition_region_midi_setup env s region)
  let c := configure_processors env s7
  if c.2 ≠ 0 then
    c.1.emit (configure_error region)
  else
    audition_region_start c.1

/-- The function `Auditioner::audition_region`. -/
def audition_region (env : Env) (s : Auditioner) (region : Region) : Auditioner :=
  let s0 := if s._auditioning ≠ 0 then cancel_audition s else s
  match region.kind with
  | .audio => audition_region_audio env s0 region
  | .midi => audition_region_midi env s0 region
  | .other =>
    s0.emit (.error_msg "Auditioning of regions other than Audio or Midi is not supported.")

/-! ## `Auditioner::output_changed` -/

/-- Lines 468-479 of `output_changed`: the left output.  `c0` is what
`get_connections` reports for port 0 (its return value is the number of
connections), `phys` the local variable of that name; its value after the
block is returned with the state. -/
def output_changed_left (outputs c0 : List String) (phys : String) (s : Auditioner) :
    Auditioner × String :=
  match c0 with
  | conn :: _ =>
    let phys1 := match outputs with
      | o :: _ => o
      | [] => phys
    if phys1 ≠ conn then
      ({ s with config := { s.config with auditioner_output_left := conn } }, phys1)
    else
      ({ s with config := { s.config with auditioner_output_left := "default" } }, phys1)
  | [] => ({ s with config := { s.config with auditioner_output_left := "" } }, phys)

/-- Lines 483-494 of `output_changed`: the right output, which tests
`outputs.size () > 1` and reads `outputs[1]`. -/
def output_changed_right (outputs c1 : List String) (phys : String) (s : Auditioner) :
    Auditioner × String :=
  match c1 with
  | conn :: _ =>
    let phys1 := match outputs with
      | _ :: o :: _ => o
      | _ => phys
    if phys1 ≠ conn then
      ({ s with config := { s.config with auditioner_output_right := conn } }, phys1)
    else
      ({ s with config := { s.config with auditioner_output_right := "default" } }, phys1)
  | [] => ({ s with config := { s.config with auditioner_output_right := "" } }, phys)

/-- The function `Auditioner::output_changed`.  `connections_changed` is the
test `change.type & IOChange::ConnectionsChanged`, `outputs` the result of
`get_physical_outputs (DataType::AUDIO, ...)`, `c0` and `c1` the connections
of the ports `nth (0)` and `nth (1)`.  The local `phys` starts empty and is
shared by the two blocks. -/
def output_changed (connections_changed : Bool) (outputs c0 c1 : List String)
    (s : Auditioner) : Auditioner :=
  if connections_changed then
    let l := output_changed_left outputs c0 "" s
    (output_changed_right outputs c1 l.2 l.1).1
  else
    s

/-! ## `FP8ButtonBase::midi_event` (`fp8_button.h`) -/

/-- The members of `FP8ButtonBase` that `midi_event` and the accessors use. -/
structure FP8ButtonBase where
  _pressed : Bool
  _active : Bool
  _ignore_release : Bool
  _rgba : Nat
  deriving DecidableEq, Repr

/-- The two signals of `FP8ButtonInterface`. -/
inductive ButtonSignal where
  | pressed
  | released
  deriving DecidableEq, Repr

/-- The constructor `FP8ButtonBase::FP8ButtonBase`. -/
def FP8ButtonBase.construct : FP8ButtonBase :=
  { _pressed := false, _active := false, _ignore_release := false, _rgba := 0 }

/-- The accessor `is_pressed ()`. -/
def FP8ButtonBase.is_pressed (b : FP8ButtonBase) : Bool := b._pressed

/-- The function `FP8ButtonBase::midi_event (bool a)`: the state after the
call, the return value and the signals emitted. -/
def FP8ButtonBase.midi_event (b : FP8ButtonBase) (a : Bool) :
    FP8ButtonBase × Bool × List ButtonSignal :=
  if a = b._pressed then
    (b, false, [])
  else
    let b1 := { b with _pressed := a }
    if a then
      (b1, true, [ButtonSignal.pressed])
    else if b1._ignore_release then
      ({ b1 with _ignore_release := false }, true, [])
    else
      (b1, true, [ButtonSignal.released])

/-- A sequence of `midi_event` calls: the final state, the return values in
order and the signals in order. -/
def FP8ButtonBase.midi_events (b : FP8ButtonBase) :
    List Bool → FP8ButtonBase × List Bool × List ButtonSignal
  | [] => (b, [], [])
  | a :: rest =>
    ((FP8ButtonBase.midi_events (b.midi_event a).1 rest).1,
     (b.midi_event a).2.1 :: (FP8ButtonBase.midi_events (b.midi_event a).1 rest).2.1,
     (b.midi_event a).2.2 ++ (FP8ButtonBase.midi_events (b.midi_event a).1 rest).2.2)

/-! ## Ticks and external events -/

/-- Consecutive real-time callbacks: `play_audition (nframes)` once per
element of `locks`, the element being the outcome of that tick's try-lock. -/
def run_ticks (nframes : Int) : List Bool → Auditioner → Auditioner
  | [], s => s
  | l :: ls, s => run_ticks nframes ls (play_audition l s nframes).1

/-! ## Closed forms of `roll` and of one tick, used by the proofs -/

/-- The three control changes pushed for one channel. -/
def panic_messages (chn : Nat) : List Event :=
  [ .midi_push_back 0 3 [(MIDI_CMD_CONTROL ||| chn) % 256, MIDI_CTL_SUSTAIN % 256, 0],
    .midi_push_back 0 3 [(MIDI_CMD_CONTROL ||| chn) % 256, MIDI_CTL_ALL_NOTES_OFF % 256, 0],
    .midi_push_back 0 3 [(MIDI_CMD_CONTROL ||| chn) % 256, MIDI_CTL_RESET_CONTROLLERS % 256, 0] ]

/-- The events of the delivery flush of `roll`. -/
def flush_events (nframes : Int) (ps : List Processor) : List Event :=
  ps.flatMap (fun p => if p = Processor.delivery then [Event.flush_buffers nframes] else [])

/-- The events one call of `roll` appends to the log. -/
def roll_events (locked queue_panic : Bool) (procs : List Processor)
    (nframes start_frame end_frame : Int) : List Event :=
  Event.roll_call nframes start_frame end_frame ::
    (if locked then
      (if queue_panic then (List.range 0xf).flatMap panic_messages else [])
        ++ [Event.process_output_buffers start_frame end_frame nframes]
        ++ flush_events nframes procs
    else [])

/-- The value of `_seeking` at line 426, after a completed seek has been
acknowledged. -/
def seeking_now (s : Auditioner) : Bool := s._seeking && !s._seek_complete

/-- Whether lines 419-424 acknowledge a completed seek. -/
def resumes (s : Auditioner) : Bool := s._seeking && s._seek_complete

/-- The value of `_seek_frame` at line 441. -/
def seek_frame_now (s : Auditioner) : Int := if resumes s then -1 else s._seek_frame

/-- The local `this_nframes` of line 428. -/
def this_nframes (s : Auditioner) (nframes : Int) : Int :=
  min nframes (s.length - s.current_frame + s._import_position)

/-- The value of `current_frame` at the end of the tick. -/
def frame_after (s : Auditioner) (nframes : Int) : Int :=
  if seeking_now s then s.current_frame else s.current_frame + this_nframes s nframes

/-- Whether the condition of line 441 holds, that is, whether the tick takes
up a seek request. -/
def starts_seek (s : Auditioner) : Bool :=
  decide (seek_frame_now s ≥ 0) && decide (seek_frame_now s < s.length) && !seeking_now s

/-- Whether the end-of-region test of line 452 holds. -/
def at_end (s : Auditioner) (nframes : Int) : Bool :=
  decide (frame_after s nframes ≥ s.length + s._import_position)

/-- The events of one auditioning tick. -/
def tick_events (locked : Bool) (s : Auditioner) (nframes : Int) : List Event :=
  (if resumes s then [Event.reset_tracker] else [])
  ++ (if seeking_now s then [Event.silence nframes]
      else roll_events locked s._queue_panic s._processors
        (to_pframes_t (this_nframes s nframes))
        s.current_frame (s.current_frame + nframes))
  ++ (if seeking_now s || starts_seek s then []
      else [Event.AuditionProgress (frame_after s nframes - s._import_position) s.length])
  ++ (if at_end s nframes then [Event.session_cancel_audition] else [])

/-- The state at the end of one auditioning tick. -/
def tick_state (locked : Bool) (s : Auditioner) (nframes : Int) : Auditioner :=
  { s with
    current_frame := frame_after s nframes
    _auditioning := if at_end s nframes then 0 else s._auditioning
    _seek_frame := seek_frame_now s
    _seeking := seeking_now s || starts_seek s
    _seek_complete := if resumes s || starts_seek s then false else s._seek_complete
    _queue_panic :=
      if starts_seek s then true
      else if seeking_now s then s._queue_panic else s._queue_panic && !locked
    log := s.log ++ tick_events locked s nframes }

/-- The return value of one auditioning tick. -/
def tick_ret (s : Auditioner) (nframes : Int) : Int :=
  if at_end s nframes then 0 else if starts_seek s then 1 else 0

/-! ## Example states and auxiliary predicates -/

/-- The example state of the witnesses: a playing audition of a region of
100 frames at position 0, the chain holding one delivery. -/
def playing_example : Auditioner :=
  { Auditioner.construct ⟨"", "", ""⟩ [Processor.delivery] with _auditioning := 1, length := 100 }

/-- The example state with a seek to frame 10 requested at frame 40. -/
def seek_pending_example : Auditioner :=
  { playing_example with current_frame := 40, _seek_frame := 10 }

/-- The example state while the disk worker is repositioning the stream. -/
def seeking_example : Auditioner :=
  { seek_pending_example with _seeking := true }

/-- The example state once the disk worker has reported completion. -/
def seek_complete_example : Auditioner :=
  { seeking_example with _seek_complete := true }

/-- The state of a tick after lines 419-439 (acknowledgement of a completed
seek, then processing or silence), before the seek test of line 441. -/
def after_processing (locked : Bool) (s : Auditioner) (nframes : Int) : Auditioner :=
  (play_audition_process locked (play_audition_resume s) nframes).1

/-- A state with a queued panic: the playing example after a MIDI stage. -/
def panic_example : Auditioner :=
  { playing_example with _midi_audition := true, _queue_panic := true }

/-- The MIDI channel addressed by a pushed message, if the event is a push. -/
def Event.push_channel : Event → Option Nat
  | .midi_push_back _ _ (b0 :: _) => some (b0 % 16)
  | _ => none

/-- Whether `lookup_synth` finds a plugin: an identifier is configured and
one of the three candidates resolves. -/
def resolvable (env : Env) (cfg : Config) : Bool :=
  decide (cfg.midi_audition_synth_uri ≠ "") &&
    (env.find_plugin cfg.midi_audition_synth_uri
      || env.find_plugin "http://gareus.org/oss/lv2/gmsynth"
      || env.find_plugin "https://community.ardour.org/node/7596")

/-- Whether the `MidiRegion` branch reaches `add_processor`: after the stale
handling the slot holds a synth that is not in the chain. -/
def inserts_synth (env : Env) (s : Auditioner) : Bool :=
  if s._synth_changed then resolvable env s.config
  else !s._synth_added && s.asynth.isSome

/-- An environment in which every plugin resolves and every chain operation
succeeds. -/
def env_ok : Env := ⟨fun _ => true, 0, 0⟩

/-- An environment in which `add_processor` fails. -/
def env_add_fails : Env := ⟨fun _ => true, -1, 0⟩

/-- An audio region of 48000 frames without a sync mark. -/
def audio_example : Region := ⟨RegionKind.audio, 0, 48000, 0, 0, 2⟩

/-- A MIDI region of 100 frames at timeline position 1000 whose sync point
lies before its start. -/
def midi_example : Region := ⟨RegionKind.midi, 1000, 100, 5, -1, 1⟩

/-- The auditioner as `init` leaves it when the configured synth resolves:
the synth slot is filled, the synth is not in the chain, no panic queued. -/
def fresh_with_synth : Auditioner :=
  lookup_synth env_ok
    (Auditioner.construct ⟨"http://gareus.org/oss/lv2/gmsynth", "", ""⟩ [Processor.delivery])

/-- The auditioner as `init` leaves it when no synth is configured. -/
def fresh_without_synth : Auditioner :=
  lookup_synth env_ok (Auditioner.construct ⟨"", "", ""⟩ [Processor.delivery])

/-- The invariant of ticking without a seek request: no seek is outstanding,
the window is the one staged, the position is between `lo` and the end of
the region, and the engine is idle only at the end of the region. -/
def Rolling (lo len pos : Int) (s : Auditioner) : Prop :=
  s._seeking = false ∧ s._seek_frame < 0 ∧ s.length = len ∧ s._import_position = pos
    ∧ lo ≤ s.current_frame ∧ s.current_frame ≤ len + pos
    ∧ (s._auditioning = 0 → s.current_frame = len + pos)

/-! ## The transport phases and the seek hand-off -/

/-- The transport phases of the spec. -/
inductive TransportPhase where
  | Idle
  | Playing
  | SeekPending
  | Seeking
  | SeekComplete
  deriving DecidableEq, Repr

/-- The spec's transport phase as a function of the flags of the code: idle
when `_auditioning` is 0; seeking while `_seeking` is set, complete once
`_seek_complete` is set as well; seek pending when a target in
`[0, length)` is stored in `_seek_frame` and `_seeking` is not set yet;
playing otherwise. -/
def phase (s : Auditioner) : TransportPhase :=
  if s._auditioning = 0 then TransportPhase.Idle
  else if s._seeking then
    (if s._seek_complete then TransportPhase.SeekComplete else TransportPhase.Seeking)
  else if 0 ≤ s._seek_frame ∧ s._seek_frame < s.length then TransportPhase.SeekPending
  else TransportPhase.Playing

/-- Modelled from the spec: the external seek request (`seek_to_frame` is
declared in `auditioner.h`, which is not among the sources).  The spec
accepts a request while not already seeking and keeps at most one
outstanding, so the target is stored when no target is stored and
`_seeking` is clear. -/
def seek_to_frame (pos : Int) (s : Auditioner) : Auditioner :=
  if s._seek_frame < 0 ∧ s._seeking = false then { s with _seek_frame := pos } else s

/-- Modelled from the spec: the disk worker's completion report
(`seek_response` is declared in `auditioner.h`, which is not among the
sources).  The spec says the worker repositions the stream and reports
completion through a flag the roller polls; the position `c` the worker
leaves in `current_frame` is a parameter. -/
def seek_done (c : Int) (s : Auditioner) : Auditioner :=
  { s with _seek_complete := true, current_frame := c }

/-- The scenario of the seek claims: an audio region of 48000 frames is being
auditioned and the position is 20000. -/
def seek_scenario : Auditioner :=
  { Auditioner.construct ⟨"", "", ""⟩ [Processor.delivery] with
    _auditioning := 1, length := 48000, current_frame := 20000,
    the_region := some audio_example }

/-! ## Closed forms of the events of staging, used by the proofs -/

/-- The events of `lookup_synth`: the `find_plugin` calls it makes, in order,
and the warning of the fallback path. -/
def lookup_events (env : Env) (cfg : Config) : List Event :=
  if cfg.midi_audition_synth_uri = "" then []
  else if env.find_plugin cfg.midi_audition_synth_uri then
    [Event.find_plugin_call cfg.midi_audition_synth_uri]
  else if env.find_plugin "http://gareus.org/oss/lv2/gmsynth" then
    [Event.find_plugin_call cfg.midi_audition_synth_uri,
     Event.find_plugin_call "http://gareus.org/oss/lv2/gmsynth",
     Event.warning_msg "Falling back to Reasonable Synth for Midi Audition"]
  else if env.find_plugin "https://community.ardour.org/node/7596" then
    [Event.find_plugin_call cfg.midi_audition_synth_uri,
     Event.find_plugin_call "http://gareus.org/oss/lv2/gmsynth",
     Event.find_plugin_call "https://community.ardour.org/node/7596",
     Event.warning_msg "Falling back to Reasonable Synth for Midi Audition"]
  else
    [Event.find_plugin_call cfg.midi_audition_synth_uri,
     Event.find_plugin_call "http://gareus.org/oss/lv2/gmsynth",
     Event.find_plugin_call "https://community.ardour.org/node/7596",
     Event.warning_msg "No synth for midi-audition found."]

/-- The events of lines 320-342 of the `MidiRegion` branch. -/
def midi_setup_events (env : Env) (s : Auditioner) : List Event :=
  Event.reset_tracker ::
    ((if s._synth_changed && s._synth_added then [Event.remove_processor_call s.asynth] else [])
      ++ (if s._synth_changed then lookup_events env s.config else []))

/-- The events of lines 344-353 of the `MidiRegion` branch. -/
def midi_insert_events (env : Env) (s : Auditioner) : List Event :=
  match s.asynth with
  | some p =>
    if !s._synth_added then
      Event.add_processor_call p ::
        (if env.add_processor_rv ≠ 0 then
          [Event.error_msg "Failed to load synth for MIDI-Audition."] else [])
    else []
  | none => []

/-- The playback start offset of lines 376-391 as a function of the region:
the sync offset, counted from the region's position for a MIDI region, and 0
when the sync direction is negative. -/
def start_offset (r : Region) : Int :=
  if r.sync_dir < 0 then 0
  else (if r.kind = RegionKind.midi then r.position else 0) + r.sync_offset

/-- The events from `configure_processors` to the end of `audition_region`. -/
def finish_events (env : Env) (r : Region) : List Event :=
  Event.configure_processors_call ::
    (if env.configure_processors_rv ≠ 0 then [configure_error r]
     else [Event.reset_panner, Event.disk_seek (start_offset r)])

/-- The events of one call of `audition_region`. -/
def stage_events (env : Env) (s : Auditioner) (r : Region) : List Event :=
  match r.kind with
  | RegionKind.audio =>
    (if s._synth_added then [Event.remove_processor_call s.asynth] else [])
      ++ finish_events env r
  | RegionKind.midi =>
    midi_setup_events env s
      ++ midi_insert_events env (audition_region_midi_setup env { s with _auditioning := 0 } r)
      ++ finish_events env r
  | RegionKind.other =>
    [Event.error_msg "Auditioning of regions other than Audio or Midi is not supported."]

/-! ## Further example states and closed forms -/

/-- A state in which the synth of a previous MIDI audition is in the chain:
the fresh auditioner after staging the MIDI example. -/
def synth_inserted_example : Auditioner :=
  audition_region env_ok fresh_with_synth midi_example

/-- A region that is neither audio nor MIDI. -/
def unsupported_example : Region := ⟨RegionKind.other, 0, 500, 0, 0, 1⟩

/-- An environment in which `configure_processors` fails. -/
def env_configure_fails : Env := ⟨fun _ => true, 0, -1⟩

/-- The events of one call of `play_audition`, auditioning or idle. -/
def step_events (locked : Bool) (s : Auditioner) (nframes : Int) : List Event :=
  if s._auditioning = 0 then [Event.silence nframes] else tick_events locked s nframes

/-- The events of consecutive ticks. -/
def run_events (nframes : Int) : List Bool → Auditioner → List Event
  | [], _ => []
  | l :: ls, s => step_events l s nframes ++ run_events nframes ls (play_audition l s nframes).1

/-- The number of completion signals in a list of events. -/
def completions (evs : List Event) : Nat := evs.count Event.session_cancel_audition

/-- The playing example 10 frames before the end of its region. -/
def final_tick_example : Auditioner :=
  { playing_example with current_frame := 90 }

/-- Whether an event is the progress signal. -/
def Event.is_progress : Event → Bool
  | .AuditionProgress _ _ => true
  | _ => false

/-- The identifiers `lookup_synth` may pass to `find_plugin`, in the order of
the source: the configured one, gmsynth, Reasonable Synth. -/
def candidates (cfg : Config) : List String :=
  [cfg.midi_audition_synth_uri, "http://gareus.org/oss/lv2/gmsynth",
   "https://community.ardour.org/node/7596"]

/-- The candidates that are queried when each one is tried only after all
earlier ones failed to resolve: up to and including the first that
resolves. -/
def queried (f : String → Bool) : List String → List String
  | [] => []
  | c :: cs => c :: (if f c then [] else queried f cs)

/-- The identifier of a `find_plugin` call, if the event is one. -/
def Event.find_plugin_uri : Event → Option String
  | .find_plugin_call uri => some uri
  | _ => none

/-- A configuration naming a synth that is not installed. -/
def config_missing_synth : Config := ⟨"urn:example:missing-synth", "", ""⟩

/-- An environment in which only Reasonable Synth resolves. -/
def env_only_reasonable : Env :=
  ⟨fun uri => decide (uri = "https://community.ardour.org/node/7596"), 0, 0⟩

/-! ## Operation sequences, invariants and further examples -/

/-- Repeated `lookup_synth` calls, one per environment of the list. -/
def lookup_again (envs : List Env) (s : Auditioner) : Auditioner :=
  envs.foldl (fun t e => lookup_synth e t) s

/-- An environment in which no plugin resolves. -/
def env_no_plugins : Env := ⟨fun _ => false, 0, 0⟩

/-- The playback window of a state: position, length and import offset. -/
def window (s : Auditioner) : Int × Int × Int :=
  (s.current_frame, s.length, s._import_position)

/-- A state without what a tick's output touches: `_queue_panic` and the
log. -/
def forget_output (s : Auditioner) : Auditioner :=
  { s with _queue_panic := false, log := [] }

/-- The operations on the auditioner that the sequence claims range over:
`audition_region` (with the environment of the call), `prepare_playlist`,
`config_changed` and a tick of `play_audition`. -/
inductive Op where
  | stage (env : Env) (r : Region)
  | prepare
  | config (p : String)
  | tick (locked : Bool) (nframes : Int)

/-- One operation applied to a state. -/
def apply_op (s : Auditioner) : Op → Auditioner
  | Op.stage env r => audition_region env s r
  | Op.prepare => prepare_playlist s
  | Op.config p => config_changed s p
  | Op.tick locked nframes => (play_audition locked s nframes).1

/-- A sequence of operations applied in order. -/
def run_ops (ops : List Op) (s : Auditioner) : Auditioner :=
  ops.foldl apply_op s

/-- Whether a processor is a plugin insert. -/
def is_plugin_insert : Processor → Bool
  | Processor.plugin_insert _ _ => true
  | _ => false

/-- The plugin inserts in the processor list. -/
def chain_synths (s : Auditioner) : List Processor :=
  s._processors.filter is_plugin_insert

/-- The bookkeeping invariant of the synth: the plugin inserts in the chain
are the synth of the slot, once, when `_synth_added` is set and none
otherwise; `_synth_added` implies a filled slot; the slot holds a plugin
insert. -/
def SynthInv (s : Auditioner) : Prop :=
  chain_synths s = (if s._synth_added then s.asynth.toList else [])
    ∧ (s._synth_added = true → s.asynth.isSome = true)
    ∧ (∀ p, s.asynth = some p → is_plugin_insert p = true)

/-- The operations of the witnesses: a MIDI stage, a change of the configured
synth, a second MIDI stage, an audio stage and `prepare_playlist`. -/
def example_ops : List Op :=
  [Op.stage env_ok midi_example, Op.config "midi-audition-synth-uri",
   Op.stage env_ok midi_example, Op.stage env_ok audio_example, Op.prepare]

/-- The strictly alternating signal sequence of length `n` that starts with
`released` when `held` is true and with `pressed` otherwise. -/
def alternating (held : Bool) : Nat → List ButtonSignal
  | 0 => []
  | n + 1 =>
    (if held then ButtonSignal.released else ButtonSignal.pressed) :: alternating (!held) n

/-- An audio region of 100 frames whose sync point lies 150 frames after its
start, past its end. -/
def overlong_sync_example : Region := ⟨RegionKind.audio, 0, 100, 150, 1, 2⟩

/-- The MIDI example without a sync mark: `sync_offset` reports offset 0 and
direction 0. -/
def unmarked_midi_example : Region := ⟨RegionKind.midi, 1000, 100, 0, 0, 1⟩

/-! ## Lemmas and theorems -/

theorem foldl_log {α : Type} (f : Auditioner → α → Auditioner) (g : α → List Event)
    (hf : ∀ s x, f s x = { s with log := s.log ++ g x }) (xs : List α) (s : Auditioner) :
    xs.foldl f s = { s with log := s.log ++ xs.flatMap g } := by
  induction xs generalizing s with
  | nil => simp
  | cons x xs ih => simp [List.foldl_cons, ih, hf, List.append_assoc]

theorem roll_panic_loop_eq (s : Auditioner) :
    roll_panic_loop s = { s with log := s.log ++ (List.range 0xf).flatMap panic_messages } := by
  unfold roll_panic_loop
  apply foldl_log
  intro s x
  simp [roll_panic_body, panic_messages, Auditioner.emit, List.append_assoc]

theorem roll_flush_eq (nframes : Int) (s : Auditioner) :
    roll_flush nframes s = { s with log := s.log ++ flush_events nframes s._processors } := by
  unfold roll_flush flush_events
  apply foldl_log
  intro s x
  by_cases h : x = Processor.delivery <;> simp [h, Auditioner.emit]

theorem roll_eq (locked : Bool) (s : Auditioner) (nframes start_frame end_frame : Int) :
    roll locked s nframes start_frame end_frame =
      ({ s with _queue_panic := s._queue_panic && !locked
                log := s.log ++ roll_events locked s._queue_panic s._processors nframes
                  start_frame end_frame }, 0) := by
  cases locked <;> cases h : s._queue_panic <;>
    simp [roll, roll_events, roll_flush_eq, roll_panic_loop_eq, Auditioner.emit, h,
      List.append_assoc]

theorem play_audition_eq (locked : Bool) (s : Auditioner) (nframes : Int)
    (haud : s._auditioning ≠ 0) :
    play_audition locked s nframes = (tick_state locked s nframes, tick_ret s nframes) := by
  obtain ⟨cf, aud, len, sf, sk, sc, vm, ma, sa, sch, qp, ip, asy, tr, mr, pr, cfg, ns, lg⟩ := s
  simp only at haud
  by_cases c1 : 0 ≤ sf <;> by_cases c2 : sf < len <;>
    by_cases c3 : len + ip ≤ cf + min nframes (len - cf + ip) <;>
    by_cases c4 : len + ip ≤ cf <;>
    cases sk <;> cases sc <;>
    simp [play_audition, play_audition_resume, play_audition_process, play_audition_seek,
      play_audition_finish, roll_eq, silence, Auditioner.emit, session_cancel_audition,
      tick_state, tick_ret, tick_events, at_end, starts_seek, frame_after, this_nframes,
      seek_frame_now, resumes, seeking_now, haud, c1, c2, c3, c4]

theorem emitted_play_audition (locked : Bool) (s : Auditioner) (nframes : Int)
    (haud : s._auditioning ≠ 0) :
    emitted s (play_audition locked s nframes).1 = tick_events locked s nframes := by
  simp [play_audition_eq locked s nframes haud, emitted, tick_state]

theorem mem_roll_events (e : Event) (locked queue_panic : Bool) (procs : List Processor)
    (nframes start_frame end_frame : Int) :
    e ∈ roll_events locked queue_panic procs nframes start_frame end_frame ↔
      e = Event.roll_call nframes start_frame end_frame ∨
      (locked = true ∧
        ((queue_panic = true ∧ ∃ chn, chn < 0xf ∧ e ∈ panic_messages chn) ∨
          e = Event.process_output_buffers start_frame end_frame nframes ∨
          (e = Event.flush_buffers nframes ∧ Processor.delivery ∈ procs))) := by
  have hfl : (∃ a ∈ procs, a = Processor.delivery ∧ e = Event.flush_buffers nframes) ↔
      (e = Event.flush_buffers nframes ∧ Processor.delivery ∈ procs) := by
    constructor
    · rintro ⟨a, ha, rfl, he⟩
      exact ⟨he, ha⟩
    · rintro ⟨he, ha⟩
      exact ⟨_, ha, rfl, he⟩
  cases locked <;> cases queue_panic <;>
    simp [roll_events, flush_events, List.mem_flatMap, hfl]

/-- C2 (counterexample): an audio region of 100 frames whose sync point lies
150 frames after its start is staged at frame 150, past its end.  On the
first tick of 30 frames the count `min (30, 100 - 150)` is -50:
`current_frame` moves by -50 to 100, but `roll`, whose `nframes` parameter
is a `pframes_t`, is called with 4294967246 and not with -50. -/
theorem roll_count_narrowed :
    (audition_region env_ok fresh_without_synth overlong_sync_example)._auditioning = 1
    ∧ (audition_region env_ok fresh_without_synth overlong_sync_example)._seeking = false
    ∧ (audition_region env_ok fresh_without_synth overlong_sync_example).current_frame = 150
    ∧ min 30
        ((audition_region env_ok fresh_without_synth overlong_sync_example).length
          + (audition_region env_ok fresh_without_synth overlong_sync_example)._import_position
          - (audition_region env_ok fresh_without_synth overlong_sync_example).current_frame)
        = -50
    ∧ (play_audition true (audition_region env_ok fresh_without_synth overlong_sync_example)
        30).1.current_frame = 100
    ∧ Event.roll_call 4294967246 150 180
        ∈ emitted (audition_region env_ok fresh_without_synth overlong_sync_example)
          (play_audition true
            (audition_region env_ok fresh_without_synth overlong_sync_example) 30).1
    ∧ Event.roll_call (-50) 150 180
        ∉ emitted (audition_region env_ok fresh_without_synth overlong_sync_example)
          (play_audition true
            (audition_region env_ok fresh_without_synth overlong_sync_example) 30).1 := by
  decide

/-- C2 (amended): on an auditioning tick that is not seeking (`_seeking` is
false, or a completed seek is acknowledged at the start of the tick),
`play_audition` advances `current_frame` by exactly
`min (nframes, length + _import_position - current_frame)`; and whenever
that count fits the `pframes_t` parameter of `roll` (it is in `[0, 2^32)`,
as it is when `0 <= nframes < 2^32` and `current_frame` is not past the end
of the region), `roll` is called exactly with that frame count and the
window starting at `current_frame`. -/
theorem play_audition_advances_by_min (locked : Bool) (s : Auditioner) (nframes : Int)
    (haud : s._auditioning ≠ 0) (hseek : s._seeking = false ∨ s._seek_complete = true) :
    (play_audition locked s nframes).1.current_frame
        = s.current_frame + min nframes (s.length + s._import_position - s.current_frame)
    ∧ (0 ≤ min nframes (s.length + s._import_position - s.current_frame) →
        min nframes (s.length + s._import_position - s.current_frame) < 4294967296 →
        ∀ m a b, Event.roll_call m a b ∈ emitted s (play_audition locked s nframes).1 ↔
          (m = min nframes (s.length + s._import_position - s.current_frame)
            ∧ a = s.current_frame ∧ b = s.current_frame + nframes))
    ∧ (0 ≤ nframes → nframes < 4294967296 →
        s.current_frame ≤ s.length + s._import_position →
        0 ≤ min nframes (s.length + s._import_position - s.current_frame)
        ∧ min nframes (s.length + s._import_position - s.current_frame) < 4294967296) := by
  have hmin : s.length - s.current_frame + s._import_position
      = s.length + s._import_position - s.current_frame := by ring
  have hnow : seeking_now s = false := by
    rcases hseek with h | h <;> simp [seeking_now, h]
  refine ⟨?_, ?_, ?_⟩
  · simp [play_audition_eq locked s nframes haud, tick_state, frame_after, this_nframes,
      hnow, hmin]
  · intro h0 h1 m a b
    have hfit : to_pframes_t (min nframes (s.length + s._import_position - s.current_frame))
        = min nframes (s.length + s._import_position - s.current_frame) :=
      Int.emod_eq_of_lt h0 h1
    rw [emitted_play_audition locked s nframes haud]
    simp only [tick_events, hnow, List.mem_append, mem_roll_events]
    by_cases h1 : resumes s <;> by_cases h2 : starts_seek s <;>
      by_cases h3 : at_end s nframes <;>
      simp [h1, h2, h3, panic_messages, this_nframes, hmin, mem_roll_events, hfit]
  · intro h0 h1 h2
    exact ⟨le_min h0 (by omega), lt_of_le_of_lt (min_le_left _ _) h1⟩

/-- Witness of C2 (amended) on the playing example with a buffer of 30
frames. -/
theorem play_audition_advances_by_min_witness :
    playing_example._auditioning ≠ 0
    ∧ (playing_example._seeking = false ∨ playing_example._seek_complete = true)
    ∧ (play_audition true playing_example 30).1.current_frame
        = playing_example.current_frame
          + min 30 (playing_example.length + playing_example._import_position
              - playing_example.current_frame)
    ∧ Event.roll_call 30 0 30 ∈ emitted playing_example (play_audition true playing_example 30).1 :=
  ⟨by decide, Or.inl rfl,
    (play_audition_advances_by_min true playing_example 30 (by decide) (Or.inl rfl)).1,
    ((play_audition_advances_by_min true playing_example 30 (by decide) (Or.inl rfl)).2.1
      (by decide) (by decide) 30 0 30).2 (by decide)⟩

/-- C3: on an auditioning tick `play_audition` calls the session's
`cancel_audition` if and only if `current_frame >= length + _import_position`
holds at the end of the tick, and when it does the return value is 0, also
on a tick that took up a seek request. -/
theorem play_audition_completion (locked : Bool) (s : Auditioner) (nframes : Int)
    (haud : s._auditioning ≠ 0) :
    (Event.session_cancel_audition ∈ emitted s (play_audition locked s nframes).1 ↔
      (play_audition locked s nframes).1.current_frame ≥
        (play_audition locked s nframes).1.length
          + (play_audition locked s nframes).1._import_position)
    ∧ (Event.session_cancel_audition ∈ emitted s (play_audition locked s nframes).1 →
        (play_audition locked s nframes).2 = 0) := by
  rw [emitted_play_audition locked s nframes haud, play_audition_eq locked s nframes haud]
  have hmem : Event.session_cancel_audition ∈ tick_events locked s nframes ↔
      at_end s nframes = true := by
    by_cases h1 : resumes s <;> by_cases h2 : starts_seek s <;>
      by_cases h3 : at_end s nframes <;> by_cases h4 : seeking_now s <;>
      simp [tick_events, h1, h2, h3, h4, mem_roll_events, panic_messages]
  refine ⟨?_, ?_⟩
  · rw [hmem]
    simp [tick_state, at_end]
  · intro h
    simp [tick_ret, hmem.1 h]

/-- Witness of C3 on the playing example. -/
theorem play_audition_completion_witness :
    playing_example._auditioning ≠ 0
    ∧ (Event.session_cancel_audition ∈ emitted playing_example
          (play_audition true playing_example 100).1 →
        (play_audition true playing_example 100).2 = 0) :=
  ⟨by decide, (play_audition_completion true playing_example 100 (by decide)).2⟩

theorem after_processing_fields (locked : Bool) (s : Auditioner) (nframes : Int) :
    (after_processing locked s nframes)._seeking = seeking_now s
    ∧ (after_processing locked s nframes)._seek_frame = seek_frame_now s
    ∧ (after_processing locked s nframes).length = s.length := by
  cases h1 : s._seeking <;> cases h2 : s._seek_complete <;>
    simp [after_processing, play_audition_process, play_audition_resume, roll_eq, silence,
      Auditioner.emit, seeking_now, seek_frame_now, resumes, h1, h2]

/-- C4: an auditioning tick starts a seek (`_seeking` goes from false after
the tick's processing to true at its end) if and only if, after the tick's
processing, `_seeking` is false and `0 <= _seek_frame < length`; a tick that
starts a seek leaves `_queue_panic` set and `_seek_complete` cleared, and
returns 1 unless the end of the region has been reached. -/
theorem play_audition_seek_start (locked : Bool) (s : Auditioner) (nframes : Int)
    (haud : s._auditioning ≠ 0) :
    (((after_processing locked s nframes)._seeking = false
        ∧ (play_audition locked s nframes).1._seeking = true) ↔
      ((after_processing locked s nframes)._seeking = false
        ∧ 0 ≤ (after_processing locked s nframes)._seek_frame
        ∧ (after_processing locked s nframes)._seek_frame
            < (after_processing locked s nframes).length))
    ∧ (((after_processing locked s nframes)._seeking = false
        ∧ (play_audition locked s nframes).1._seeking = true) →
      (play_audition locked s nframes).1._queue_panic = true
        ∧ (play_audition locked s nframes).1._seek_complete = false
        ∧ ((play_audition locked s nframes).1.current_frame
              < (play_audition locked s nframes).1.length
                + (play_audition locked s nframes).1._import_position →
            (play_audition locked s nframes).2 = 1)) := by
  obtain ⟨f1, f2, f3⟩ := after_processing_fields locked s nframes
  rw [f1, f2, f3, play_audition_eq locked s nframes haud]
  cases h : seeking_now s
  · by_cases c1 : 0 ≤ seek_frame_now s <;> by_cases c2 : seek_frame_now s < s.length <;>
      by_cases c3 : at_end s nframes <;>
      simp [tick_state, tick_ret, starts_seek, h, c1, c2, c3]
    all_goals simp [at_end] at c3
    all_goals omega
  · simp [tick_state, h]

/-- Witness of C4 on the example with a pending seek request. -/
theorem play_audition_seek_start_witness :
    seek_pending_example._auditioning ≠ 0
    ∧ (((after_processing true seek_pending_example 30)._seeking = false
        ∧ (play_audition true seek_pending_example 30).1._seeking = true) ↔
      ((after_processing true seek_pending_example 30)._seeking = false
        ∧ 0 ≤ (after_processing true seek_pending_example 30)._seek_frame
        ∧ (after_processing true seek_pending_example 30)._seek_frame
            < (after_processing true seek_pending_example 30).length)) :=
  ⟨by decide, (play_audition_seek_start true seek_pending_example 30 (by decide)).1⟩

/-- C5: an auditioning tick that begins with `_seeking` true and
`_seek_complete` false emits silence for the full `nframes`, never calls
`roll` nor the processing chain, leaves `current_frame` unchanged, and does
not start a second seek: the seek flags and `_queue_panic` are left as they
were and the return value is 0. -/
theorem play_audition_while_seeking (locked : Bool) (s : Auditioner) (nframes : Int)
    (haud : s._auditioning ≠ 0) (hseeking : s._seeking = true)
    (hcomplete : s._seek_complete = false) :
    Event.silence nframes ∈ emitted s (play_audition locked s nframes).1
    ∧ (∀ m a b, Event.roll_call m a b ∉ emitted s (play_audition locked s nframes).1)
    ∧ (∀ a b m, Event.process_output_buffers a b m ∉
        emitted s (play_audition locked s nframes).1)
    ∧ (play_audition locked s nframes).1.current_frame = s.current_frame
    ∧ (play_audition locked s nframes).1._seeking = true
    ∧ (play_audition locked s nframes).1._seek_complete = false
    ∧ (play_audition locked s nframes).1._seek_frame = s._seek_frame
    ∧ (play_audition locked s nframes).1._queue_panic = s._queue_panic
    ∧ (play_audition locked s nframes).2 = 0 := by
  have hnow : seeking_now s = true := by simp [seeking_now, hseeking, hcomplete]
  have hres : resumes s = false := by simp [resumes, hseeking, hcomplete]
  have hst : starts_seek s = false := by simp [starts_seek, hnow]
  rw [emitted_play_audition locked s nframes haud, play_audition_eq locked s nframes haud]
  by_cases h3 : at_end s nframes <;>
    simp [tick_events, tick_state, tick_ret, frame_after, seek_frame_now, hnow, hres, hst, h3,
      hcomplete]

/-- Witness of C5 on the seeking example. -/
theorem play_audition_while_seeking_witness :
    seeking_example._auditioning ≠ 0 ∧ seeking_example._seeking = true
    ∧ seeking_example._seek_complete = false
    ∧ (play_audition true seeking_example 30).1.current_frame = seeking_example.current_frame
    ∧ (play_audition true seeking_example 30).2 = 0 :=
  ⟨by decide, rfl, rfl,
    (play_audition_while_seeking true seeking_example 30 (by decide) rfl rfl).2.2.2.1,
    (play_audition_while_seeking true seeking_example 30 (by decide) rfl rfl).2.2.2.2.2.2.2.2⟩

/-- C6: an auditioning tick that begins with `_seeking` and `_seek_complete`
both true ends with the seek flags cleared (`_seeking = false`,
`_seek_complete = false`, `_seek_frame = -1`), resets the disk reader's note
tracker, processes on that same tick (`roll` is called for the window
starting at `current_frame`, with the frame count
`min (nframes, length + _import_position - current_frame)` narrowed to
`pframes_t`, and `current_frame` advances by that minimum), and does not
start a new seek: no hand-off is requested and `_queue_panic` is not set by
the tick. -/
theorem play_audition_seek_complete (locked : Bool) (s : Auditioner) (nframes : Int)
    (haud : s._auditioning ≠ 0) (hseeking : s._seeking = true)
    (hcomplete : s._seek_complete = true) :
    (play_audition locked s nframes).1._seeking = false
    ∧ (play_audition locked s nframes).1._seek_complete = false
    ∧ (play_audition locked s nframes).1._seek_frame = -1
    ∧ Event.reset_tracker ∈ emitted s (play_audition locked s nframes).1
    ∧ Event.roll_call
        (to_pframes_t (min nframes (s.length + s._import_position - s.current_frame)))
        s.current_frame (s.current_frame + nframes) ∈
          emitted s (play_audition locked s nframes).1
    ∧ (∀ m, Event.silence m ∉ emitted s (play_audition locked s nframes).1)
    ∧ (play_audition locked s nframes).1.current_frame
        = s.current_frame + min nframes (s.length + s._import_position - s.current_frame)
    ∧ (play_audition locked s nframes).1._queue_panic = (s._queue_panic && !locked)
    ∧ (play_audition locked s nframes).2 = 0 := by
  have hmin : s.length - s.current_frame + s._import_position
      = s.length + s._import_position - s.current_frame := by ring
  have hnow : seeking_now s = false := by simp [seeking_now, hseeking, hcomplete]
  have hres : resumes s = true := by simp [resumes, hseeking, hcomplete]
  have hst : starts_seek s = false := by simp [starts_seek, seek_frame_now, hres]
  rw [emitted_play_audition locked s nframes haud, play_audition_eq locked s nframes haud]
  by_cases h3 : at_end s nframes <;>
    simp [tick_events, tick_state, tick_ret, frame_after, seek_frame_now, this_nframes, hnow,
      hres, hst, h3, hmin, mem_roll_events, panic_messages]

/-- Witness of C6 on the example with a completed seek. -/
theorem play_audition_seek_complete_witness :
    seek_complete_example._auditioning ≠ 0 ∧ seek_complete_example._seeking = true
    ∧ seek_complete_example._seek_complete = true
    ∧ (play_audition true seek_complete_example 30).1._seeking = false
    ∧ (play_audition true seek_complete_example 30).1._seek_complete = false
    ∧ (play_audition true seek_complete_example 30).1._seek_frame = -1 :=
  ⟨by decide, rfl, rfl,
    (play_audition_seek_complete true seek_complete_example 30 (by decide) rfl rfl).1,
    (play_audition_seek_complete true seek_complete_example 30 (by decide) rfl rfl).2.1,
    (play_audition_seek_complete true seek_complete_example 30 (by decide) rfl rfl).2.2.1⟩

/-- C8 (the code at the failing input): with `_queue_panic` set and the lock
taken, `roll` clears `_queue_panic` and pushes its control changes before the
chain runs, but the loop `chn < 0xf` stops after channel 14: 45 messages are
pushed, three for each of the channels 0 to 14, and none for channel 15. -/
theorem roll_panic_misses_channel_15 :
    (roll true panic_example 30 0 30).1._queue_panic = false
    ∧ (emitted panic_example (roll true panic_example 30 0 30).1).filterMap Event.push_channel
        = (List.range 15).flatMap (fun chn => [chn, chn, chn])
    ∧ ((emitted panic_example (roll true panic_example 30 0 30).1).filterMap
        Event.push_channel).length = 45
    ∧ 15 ∉ (emitted panic_example (roll true panic_example 30 0 30).1).filterMap
        Event.push_channel
    ∧ emitted panic_example (roll true panic_example 30 0 30).1
        = [Event.roll_call 30 0 30] ++ (List.range 15).flatMap panic_messages
          ++ [Event.process_output_buffers 0 30 30, Event.flush_buffers 30] := by
  decide

theorem lookup_synth_frame (env : Env) (s : Auditioner) :
    lookup_synth env s =
      { s with asynth := (lookup_synth env s).asynth
               config := (lookup_synth env s).config
               next_serial := (lookup_synth env s).next_serial
               log := (lookup_synth env s).log } := by
  unfold lookup_synth find_plugin
  by_cases h0 : s.config.midi_audition_synth_uri = ""
  · simp [h0]
  · cases h1 : env.find_plugin s.config.midi_audition_synth_uri <;>
    cases h2 : env.find_plugin "http://gareus.org/oss/lv2/gmsynth" <;>
    cases h3 : env.find_plugin "https://community.ardour.org/node/7596" <;>
    simp [h0, h1, h2, h3, Auditioner.emit]

theorem lookup_synth_asynth (env : Env) (s : Auditioner) :
    (lookup_synth env s).asynth.isSome = resolvable env s.config := by
  unfold lookup_synth find_plugin resolvable
  by_cases h0 : s.config.midi_audition_synth_uri = ""
  · simp [h0]
  · cases h1 : env.find_plugin s.config.midi_audition_synth_uri <;>
    cases h2 : env.find_plugin "http://gareus.org/oss/lv2/gmsynth" <;>
    cases h3 : env.find_plugin "https://community.ardour.org/node/7596" <;>
    simp [h0, h1, h2, h3, Auditioner.emit]

theorem lookup_synth_queue_panic (env : Env) (s : Auditioner) :
    (lookup_synth env s)._queue_panic = s._queue_panic := by
  rw [lookup_synth_frame]

theorem lookup_synth_synth_added (env : Env) (s : Auditioner) :
    (lookup_synth env s)._synth_added = s._synth_added := by
  rw [lookup_synth_frame]

theorem cancel_if_auditioning (s : Auditioner) :
    (if s._auditioning ≠ 0 then cancel_audition s else s) = { s with _auditioning := 0 } := by
  by_cases h : s._auditioning = 0
  · simp [h]
    rw [← h]
  · simp [h, cancel_audition]

theorem audition_region_start_queue_panic (s : Auditioner) :
    (audition_region_start s)._queue_panic = s._queue_panic := by
  unfold audition_region_start
  simp only []
  split <;> simp [Auditioner.emit]

theorem audition_region_audio_queue_panic (env : Env) (s : Auditioner) (r : Region) :
    (audition_region_audio env s r)._queue_panic = s._queue_panic := by
  unfold audition_region_audio configure_processors
  by_cases hc : env.configure_processors_rv = 0 <;> cases ha : s._synth_added <;>
    simp [hc, ha, audition_region_start_queue_panic, Auditioner.emit, remove_processor]

theorem midi_setup_queue_panic (env : Env) (s : Auditioner) (r : Region) :
    (audition_region_midi_setup env s r)._queue_panic = s._queue_panic := by
  unfold audition_region_midi_setup
  cases h1 : s._synth_changed <;> cases h2 : s._synth_added <;>
    simp [h1, h2, Auditioner.emit, remove_processor, lookup_synth_queue_panic]

theorem midi_setup_inserts (env : Env) (s : Auditioner) (r : Region) :
    ((audition_region_midi_setup env s r).asynth.isSome
        && !(audition_region_midi_setup env s r)._synth_added)
      = inserts_synth env s := by
  unfold audition_region_midi_setup inserts_synth
  cases h1 : s._synth_changed <;> cases h2 : s._synth_added <;>
    simp [h1, h2, Auditioner.emit, remove_processor, lookup_synth_asynth,
      lookup_synth_synth_added]

theorem midi_insert_queue_panic (env : Env) (s : Auditioner) :
    (audition_region_midi_insert env s)._queue_panic
      = if s.asynth.isSome && !s._synth_added then s._queue_panic else true := by
  unfold audition_region_midi_insert add_processor
  cases h1 : s.asynth <;> cases h2 : s._synth_added <;>
    by_cases h3 : env.add_processor_rv = 0 <;>
    simp [h2, h3, Auditioner.emit]

theorem audition_region_midi_queue_panic (env : Env) (s : Auditioner) (r : Region) :
    (audition_region_midi env s r)._queue_panic
      = if inserts_synth env s then s._queue_panic else true := by
  unfold audition_region_midi configure_processors
  by_cases hc : env.configure_processors_rv = 0 <;>
    simp [hc, audition_region_start_queue_panic, Auditioner.emit, midi_insert_queue_panic,
      midi_setup_inserts, midi_setup_queue_panic]

/-- C9 (counterexample): staging a MIDI region on a fresh auditioner whose
synth slot is filled inserts the synth and leaves `_queue_panic` false; when
the insertion fails `_queue_panic` is false as well. -/
theorem stage_midi_leaves_panic_unarmed :
    midi_example.kind = RegionKind.midi
    ∧ fresh_with_synth._queue_panic = false
    ∧ (audition_region env_ok fresh_with_synth midi_example)._auditioning = 1
    ∧ (audition_region env_ok fresh_with_synth midi_example)._synth_added = true
    ∧ (audition_region env_ok fresh_with_synth midi_example)._queue_panic = false
    ∧ (audition_region env_add_fails fresh_with_synth midi_example)._auditioning = 1
    ∧ (audition_region env_add_fails fresh_with_synth midi_example)._synth_added = false
    ∧ (audition_region env_add_fails fresh_with_synth midi_example)._queue_panic = false := by
  decide

/-- C9 (amended): staging a MIDI region leaves `_queue_panic` true whenever
the call does not reach `add_processor` (the synth is already in the chain
and not stale, or the slot is empty after the stale handling); when the call
attempts to insert the synth, whether the insertion succeeds or fails,
`_queue_panic` keeps the value it had before the call. -/
theorem stage_midi_queue_panic (env : Env) (s : Auditioner) (r : Region)
    (hk : r.kind = RegionKind.midi) :
    (audition_region env s r)._queue_panic
      = if inserts_synth env s then s._queue_panic else true := by
  unfold audition_region
  rw [cancel_if_auditioning]
  simp only [hk]
  rw [audition_region_midi_queue_panic]
  rfl

/-- Witness of C9 (amended) on the MIDI example. -/
theorem stage_midi_queue_panic_witness :
    midi_example.kind = RegionKind.midi
    ∧ (audition_region env_ok fresh_without_synth midi_example)._queue_panic
      = if inserts_synth env_ok fresh_without_synth then fresh_without_synth._queue_panic
        else true :=
  ⟨rfl, stage_midi_queue_panic env_ok fresh_without_synth midi_example rfl⟩

/-- C10 (counterexample): a MIDI stage without a synth arms `_queue_panic`;
staging an audio region next, with no tick in between, succeeds and leaves
`_queue_panic` true. -/
theorem stage_audio_panic_still_armed :
    audio_example.kind = RegionKind.audio
    ∧ (audition_region env_ok fresh_without_synth midi_example)._queue_panic = true
    ∧ (audition_region env_ok (audition_region env_ok fresh_without_synth midi_example)
        audio_example)._auditioning = 1
    ∧ (audition_region env_ok (audition_region env_ok fresh_without_synth midi_example)
        audio_example)._queue_panic = true := by
  decide

/-- C10 (amended): staging an audio region never writes `_queue_panic`: after
the call it has the value it had before, so it is false exactly when it was
false before the call. -/
theorem stage_audio_keeps_queue_panic (env : Env) (s : Auditioner) (r : Region)
    (hk : r.kind = RegionKind.audio) :
    (audition_region env s r)._queue_panic = s._queue_panic := by
  unfold audition_region
  rw [cancel_if_auditioning]
  simp only [hk]
  rw [audition_region_audio_queue_panic]

/-- Witness of C10 (amended) on the audio example. -/
theorem stage_audio_keeps_queue_panic_witness :
    audio_example.kind = RegionKind.audio
    ∧ (audition_region env_ok fresh_with_synth audio_example)._queue_panic
      = fresh_with_synth._queue_panic :=
  ⟨rfl, stage_audio_keeps_queue_panic env_ok fresh_with_synth audio_example rfl⟩

theorem audition_region_start_fields (s : Auditioner) (r : Region)
    (h : staged_region s = some r) :
    (audition_region_start s)._auditioning = 1
    ∧ (audition_region_start s)._seeking = false
    ∧ (audition_region_start s)._seek_frame = -1
    ∧ (audition_region_start s).length = r.length
    ∧ (audition_region_start s)._import_position = s._import_position
    ∧ (audition_region_start s).current_frame
        = if r.sync_dir < 0 then 0
          else if s._midi_audition then s._import_position + r.sync_offset else r.sync_offset := by
  have h2 : staged_region
      { s.emit Event.reset_panner with _seek_frame := -1, _seeking := false } = some r := by
    simpa [staged_region, Auditioner.emit] using h
  unfold audition_region_start
  simp only [h2]
  simp [Auditioner.emit]

theorem midi_setup_staged (env : Env) (s : Auditioner) (r : Region) :
    (audition_region_midi_setup env s r)._midi_audition = true
    ∧ (audition_region_midi_setup env s r).midi_region = some r
    ∧ (audition_region_midi_setup env s r)._import_position = r.position := by
  unfold audition_region_midi_setup
  cases h1 : s._synth_changed <;> cases h2 : s._synth_added <;>
    simp [h1, h2, Auditioner.emit, remove_processor]
  all_goals rw [lookup_synth_frame]
  all_goals simp

theorem midi_insert_staged (env : Env) (s : Auditioner) :
    (audition_region_midi_insert env s)._midi_audition = s._midi_audition
    ∧ (audition_region_midi_insert env s).midi_region = s.midi_region
    ∧ (audition_region_midi_insert env s)._import_position = s._import_position := by
  unfold audition_region_midi_insert add_processor
  cases h1 : s.asynth <;> cases h2 : s._synth_added <;>
    by_cases h3 : env.add_processor_rv = 0 <;>
    simp [h2, h3, Auditioner.emit]

/-- The state a successful stage leaves: auditioning, no seek outstanding,
the window of the region, and the start offset computed at lines 376-394. -/
theorem audition_region_ok_fields (env : Env) (s : Auditioner) (r : Region)
    (hk : r.kind ≠ RegionKind.other) (hcfg : env.configure_processors_rv = 0) :
    (audition_region env s r)._auditioning = 1
    ∧ (audition_region env s r)._seeking = false
    ∧ (audition_region env s r)._seek_frame = -1
    ∧ (audition_region env s r).length = r.length
    ∧ (audition_region env s r)._import_position
        = (if r.kind = RegionKind.midi then r.position else 0)
    ∧ (audition_region env s r).current_frame
        = if r.sync_dir < 0 then 0
          else (if r.kind = RegionKind.midi then r.position else 0) + r.sync_offset := by
  unfold audition_region
  rw [cancel_if_auditioning]
  cases hkind : r.kind
  · -- audio
    have hst : ∀ t : Auditioner, t._midi_audition = false →
        t.the_region = some { r with position := 0 } →
        staged_region t = some { r with position := 0 } := by
      intro t h1 h2
      simp [staged_region, h1, h2]
    simp only [audition_region_audio, configure_processors, hcfg]
    cases ha : s._synth_added
    · have := audition_region_start_fields
        ({ s with _auditioning := 0, _midi_audition := false, midi_region := none,
                  _import_position := 0,
                  the_region := some { r with position := 0 } }.emit
            Event.configure_processors_call)
        { r with position := 0 } (hst _ rfl rfl)
      simpa [ha, Auditioner.emit] using this
    · have := audition_region_start_fields
        ({ remove_processor s.asynth { s with _auditioning := 0, _midi_audition := false } with
                  _synth_added := false, midi_region := none, _import_position := 0,
                  the_region := some { r with position := 0 } }.emit
            Event.configure_processors_call)
        { r with position := 0 } (hst _ rfl rfl)
      simpa [ha, Auditioner.emit, remove_processor] using this
  · -- midi
    obtain ⟨a1, a2, a3⟩ := midi_setup_staged env { s with _auditioning := 0 } r
    obtain ⟨b1, b2, b3⟩ := midi_insert_staged env
      (audition_region_midi_setup env { s with _auditioning := 0 } r)
    rw [a1] at b1
    rw [a2] at b2
    rw [a3] at b3
    have := audition_region_start_fields
      ((audition_region_midi_insert env
        (audition_region_midi_setup env { s with _auditioning := 0 } r)).emit
          Event.configure_processors_call) r
      (by simp [staged_region, Auditioner.emit, b1, b2])
    simpa [audition_region_midi, configure_processors, hcfg, Auditioner.emit, b1, b3] using this
  · exact absurd hkind hk

theorem play_audition_idle (locked : Bool) (s : Auditioner) (nframes : Int)
    (h : s._auditioning = 0) :
    (play_audition locked s nframes).1 = silence nframes s := by
  simp [play_audition, h]

/-- One tick under the invariant: the position moves forward by
`min (nframes, remaining)` while auditioning and stays put when idle, and the
invariant is kept. -/
theorem play_audition_rolling (lo len pos : Int) (locked : Bool) (s : Auditioner)
    (nframes : Int) (hn : 0 < nframes) (h : Rolling lo len pos s) :
    Rolling lo len pos (play_audition locked s nframes).1
    ∧ s.current_frame ≤ (play_audition locked s nframes).1.current_frame
    ∧ len + pos - (play_audition locked s nframes).1.current_frame
        ≤ max 0 (len + pos - s.current_frame - 1) := by
  obtain ⟨h1, h2, h3, h4, h5, h6, h7⟩ := h
  by_cases haud : s._auditioning = 0
  · rw [play_audition_idle locked s nframes haud]
    have hcf := h7 haud
    have hgap : len + pos - s.current_frame ≤ max 0 (len + pos - s.current_frame - 1) :=
      le_trans (by omega) (le_max_left _ _)
    exact ⟨⟨h1, h2, h3, h4, h5, h6, h7⟩, le_refl _, hgap⟩
  · rw [play_audition_eq locked s nframes haud]
    have hnow : seeking_now s = false := by simp [seeking_now, h1]
    have hres : resumes s = false := by simp [resumes, h1]
    have hst : starts_seek s = false := by
      simp [starts_seek, seek_frame_now, hres, hnow]
      intro h0
      omega
    have hfa : frame_after s nframes = s.current_frame + min nframes (len + pos - s.current_frame) := by
      have hr : len - s.current_frame + pos = len + pos - s.current_frame := by ring
      simp [frame_after, this_nframes, hnow, h3, h4, hr]
    have hmin1 : 0 ≤ min nframes (len + pos - s.current_frame) := le_min (le_of_lt hn) (by omega)
    have hmin2 : min nframes (len + pos - s.current_frame) ≤ len + pos - s.current_frame :=
      min_le_right _ _
    have hmin3 : len + pos - s.current_frame ≥ 1 →
        1 ≤ min nframes (len + pos - s.current_frame) := fun hg => le_min (by omega) hg
    refine ⟨⟨?_, ?_, ?_, ?_, ?_, ?_, ?_⟩, ?_, ?_⟩
    · simp [tick_state, hnow, hst]
    · simp [tick_state, seek_frame_now, hres, h2]
    · simp [tick_state, h3]
    · simp [tick_state, h4]
    · simp only [tick_state, hfa]
      omega
    · simp only [tick_state, hfa]
      omega
    · simp only [tick_state, hfa, at_end, h3, h4]
      by_cases he : s.current_frame + min nframes (len + pos - s.current_frame) ≥ len + pos
      · simp only [he, decide_True, if_true]
        intro _
        omega
      · simp only [he, decide_False]
        intro h0
        simp at h0
        exact absurd h0 haud
    · simp only [tick_state, hfa]
      omega
    · simp only [tick_state, hfa]
      by_cases hg : len + pos - s.current_frame ≥ 1
      · have := hmin3 hg
        have : len + pos - (s.current_frame + min nframes (len + pos - s.current_frame))
            ≤ len + pos - s.current_frame - 1 := by omega
        exact le_trans this (le_max_right _ _)
      · have : len + pos - (s.current_frame + min nframes (len + pos - s.current_frame)) ≤ 0 := by
          omega
        exact le_trans this (le_max_left _ _)

theorem run_ticks_append (nframes : Int) (xs ys : List Bool) (s : Auditioner) :
    run_ticks nframes (xs ++ ys) s = run_ticks nframes ys (run_ticks nframes xs s) := by
  induction xs generalizing s with
  | nil => rfl
  | cons x xs ih => simp [run_ticks, ih]

theorem run_ticks_rolling (lo len pos nframes : Int) (hn : 0 < nframes) (locks : List Bool)
    (s : Auditioner) (h : Rolling lo len pos s) :
    Rolling lo len pos (run_ticks nframes locks s) := by
  induction locks generalizing s with
  | nil => exact h
  | cons l ls ih => exact ih _ (play_audition_rolling lo len pos l s nframes hn h).1

theorem run_ticks_reaches_end (lo len pos nframes : Int) (hn : 0 < nframes)
    (locks : List Bool) (s : Auditioner) (h : Rolling lo len pos s)
    (hk : (len + pos - s.current_frame).toNat ≤ locks.length) :
    (run_ticks nframes locks s).current_frame = len + pos := by
  induction locks generalizing s with
  | nil =>
    obtain ⟨_, _, _, _, _, h6, _⟩ := h
    simp at hk
    simp only [run_ticks]
    omega
  | cons l ls ih =>
    obtain ⟨hr, _, hgap⟩ := play_audition_rolling lo len pos l s nframes hn h
    apply ih _ hr
    simp only [List.length_cons] at hk
    have h6 := h.2.2.2.2.2.1
    omega

/-- C1 (the code at the failing input): a MIDI region at position 1000, of
length 100, whose sync point lies before its start (sync offset 5, within
the length) is staged with `current_frame = 0` while `_import_position` is
1000: the clamp of lines 389-391 writes 0 where the start of the region is
`_import_position`.  After the first tick of 10 frames `current_frame` is
10, below `_import_position`, and the progress signal carries the position
-990.  The same region without a sync mark starts at 1000. -/
theorem audition_ticks_below_window :
    midi_example.kind = RegionKind.midi
    ∧ midi_example.sync_offset ≤ midi_example.length
    ∧ (audition_region env_ok fresh_without_synth midi_example)._auditioning = 1
    ∧ (audition_region env_ok fresh_without_synth midi_example)._import_position = 1000
    ∧ (audition_region env_ok fresh_without_synth midi_example).current_frame = 0
    ∧ (run_ticks 10 [true]
        (audition_region env_ok fresh_without_synth midi_example)).current_frame = 10
    ∧ ¬ ((run_ticks 10 [true]
          (audition_region env_ok fresh_without_synth midi_example))._import_position
        ≤ (run_ticks 10 [true]
          (audition_region env_ok fresh_without_synth midi_example)).current_frame)
    ∧ Event.AuditionProgress (-990) 100
        ∈ emitted (audition_region env_ok fresh_without_synth midi_example)
          (run_ticks 10 [true] (audition_region env_ok fresh_without_synth midi_example))
    ∧ (audition_region env_ok fresh_without_synth unmarked_midi_example).current_frame
        = 1000 := by
  decide

/-- C7 (counterexample): in the scenario, with a buffer of 512 frames, the
engine goes through Playing, SeekPending, Seeking, SeekComplete and Playing
and the panic flag is set on the way, but the position after the transition
back to Playing is not 5000: it is 5512 when the disk worker left the
position at the target, and 21024 when the worker left it untouched. -/
theorem seek_scenario_position_not_target :
    phase seek_scenario = TransportPhase.Playing
    ∧ seek_scenario.current_frame = 20000
    ∧ phase (seek_to_frame 5000 seek_scenario) = TransportPhase.SeekPending
    ∧ phase (play_audition true (seek_to_frame 5000 seek_scenario) 512).1
        = TransportPhase.Seeking
    ∧ (play_audition true (seek_to_frame 5000 seek_scenario) 512).1._queue_panic = true
    ∧ (play_audition true (seek_to_frame 5000 seek_scenario) 512).1.current_frame = 20512
    ∧ phase (seek_done 5000 (play_audition true (seek_to_frame 5000 seek_scenario) 512).1)
        = TransportPhase.SeekComplete
    ∧ phase (play_audition true
          (seek_done 5000 (play_audition true (seek_to_frame 5000 seek_scenario) 512).1) 512).1
        = TransportPhase.Playing
    ∧ (play_audition true
          (seek_done 5000 (play_audition true (seek_to_frame 5000 seek_scenario) 512).1)
          512).1.current_frame = 5512
    ∧ (play_audition true
          (seek_done 20512 (play_audition true (seek_to_frame 5000 seek_scenario) 512).1)
          512).1.current_frame = 21024 := by
  decide

/-- C7 (amended): for a seek requested at position 20000 targeting frame
5000 while Playing, the ticks take the engine through Playing, SeekPending,
Seeking, SeekComplete and back to Playing; the tick that takes up the
request sets the panic flag and asks for the hand-off (returns 1); the
roller does not assign the seek target to the position: the tick that
returns to Playing clears the request (`_seek_frame = -1`) and advances from
the position `c` it finds at SeekComplete, so the position is `c + n`
immediately after the transition back to Playing. -/
theorem seek_scenario_phases (n c : Int) (l1 l2 : Bool) (h1 : n < 28000)
    (h2 : c + n < 48000) :
    phase seek_scenario = TransportPhase.Playing
    ∧ phase (seek_to_frame 5000 seek_scenario) = TransportPhase.SeekPending
    ∧ phase (play_audition l1 (seek_to_frame 5000 seek_scenario) n).1 = TransportPhase.Seeking
    ∧ (play_audition l1 (seek_to_frame 5000 seek_scenario) n).1._queue_panic = true
    ∧ (play_audition l1 (seek_to_frame 5000 seek_scenario) n).2 = 1
    ∧ phase (seek_done c (play_audition l1 (seek_to_frame 5000 seek_scenario) n).1)
        = TransportPhase.SeekComplete
    ∧ phase (play_audition l2
          (seek_done c (play_audition l1 (seek_to_frame 5000 seek_scenario) n).1) n).1
        = TransportPhase.Playing
    ∧ (play_audition l2
          (seek_done c (play_audition l1 (seek_to_frame 5000 seek_scenario) n).1)
          n).1._seek_frame = -1
    ∧ (play_audition l2
          (seek_done c (play_audition l1 (seek_to_frame 5000 seek_scenario) n).1)
          n).1.current_frame = c + n := by
  have hs1 : seek_to_frame 5000 seek_scenario = { seek_scenario with _seek_frame := 5000 } := by
    decide
  have ha1 : (seek_to_frame 5000 seek_scenario)._auditioning ≠ 0 := by decide
  have hm1 : min n 28000 = n := min_eq_left (le_of_lt h1)
  have hm2 : min n (48000 - c) = n := min_eq_left (by omega)
  have e1 := play_audition_eq l1 (seek_to_frame 5000 seek_scenario) n ha1
  have hp : (play_audition l1 (seek_to_frame 5000 seek_scenario) n).1 =
      { seek_scenario with
        current_frame := 20000 + n, _seek_frame := 5000, _seeking := true, _queue_panic := true
        log := (tick_state l1 (seek_to_frame 5000 seek_scenario) n).log } := by
    rw [e1, hs1]
    simp [tick_state, seek_scenario, Auditioner.construct, frame_after, this_nframes,
      seeking_now, seek_frame_now, resumes, starts_seek, at_end, hm1]
    omega
  have hr : (play_audition l1 (seek_to_frame 5000 seek_scenario) n).2 = 1 := by
    rw [e1, hs1]
    simp [tick_ret, seek_scenario, Auditioner.construct, frame_after, this_nframes,
      seeking_now, seek_frame_now, resumes, starts_seek, at_end, hm1]
    omega
  have ha2 : (seek_done c (play_audition l1 (seek_to_frame 5000 seek_scenario) n).1)._auditioning
      ≠ 0 := by
    rw [hp]
    simp [seek_done, seek_scenario, Auditioner.construct]
  have e2 := play_audition_eq l2
    (seek_done c (play_audition l1 (seek_to_frame 5000 seek_scenario) n).1) n ha2
  refine ⟨by decide, by decide, ?_, ?_, hr, ?_, ?_, ?_, ?_⟩
  · rw [hp]
    simp [phase, seek_scenario, Auditioner.construct]
  · rw [hp]
  · rw [hp]
    simp [phase, seek_done, seek_scenario, Auditioner.construct]
  · rw [e2, hp]
    simp [phase, tick_state, seek_done, seek_scenario, Auditioner.construct, frame_after,
      this_nframes, seeking_now, seek_frame_now, resumes, starts_seek, at_end, hm2]
    omega
  · rw [e2, hp]
    simp [tick_state, seek_done, seek_scenario, Auditioner.construct, seek_frame_now, resumes]
  · rw [e2, hp]
    simp [tick_state, seek_done, seek_scenario, Auditioner.construct, frame_after,
      this_nframes, seeking_now, hm2]

/-- Witness of C7 (amended): a buffer of 512 frames, the disk worker leaving
the position at the target 5000. -/
theorem seek_scenario_phases_witness :
    (512 : Int) < 28000 ∧ (5000 : Int) + 512 < 48000
    ∧ phase (play_audition true
          (seek_done 5000 (play_audition true (seek_to_frame 5000 seek_scenario) 512).1) 512).1
        = TransportPhase.Playing
    ∧ (play_audition true
          (seek_done 5000 (play_audition true (seek_to_frame 5000 seek_scenario) 512).1)
          512).1.current_frame = 5000 + 512 :=
  ⟨by decide, by decide,
    (seek_scenario_phases 512 5000 true true (by decide) (by decide)).2.2.2.2.2.2.1,
    (seek_scenario_phases 512 5000 true true (by decide) (by decide)).2.2.2.2.2.2.2.2⟩

/-! ## The events of staging -/

theorem lookup_synth_log (env : Env) (s : Auditioner) :
    (lookup_synth env s).log = s.log ++ lookup_events env s.config := by
  unfold lookup_synth find_plugin lookup_events
  by_cases h0 : s.config.midi_audition_synth_uri = ""
  · simp [h0]
  · cases h1 : env.find_plugin s.config.midi_audition_synth_uri <;>
    cases h2 : env.find_plugin "http://gareus.org/oss/lv2/gmsynth" <;>
    cases h3 : env.find_plugin "https://community.ardour.org/node/7596" <;>
    simp [h0, h1, h2, h3, Auditioner.emit]

theorem midi_setup_log (env : Env) (s : Auditioner) (r : Region) :
    (audition_region_midi_setup env s r).log = s.log ++ midi_setup_events env s := by
  unfold audition_region_midi_setup midi_setup_events
  cases h1 : s._synth_changed <;> cases h2 : s._synth_added <;>
    simp [h1, h2, Auditioner.emit, remove_processor, lookup_synth_log]

theorem midi_insert_log (env : Env) (s : Auditioner) :
    (audition_region_midi_insert env s).log = s.log ++ midi_insert_events env s := by
  unfold audition_region_midi_insert add_processor midi_insert_events
  cases h1 : s.asynth <;> cases h2 : s._synth_added <;>
    by_cases h3 : env.add_processor_rv = 0 <;>
    simp [h2, h3, Auditioner.emit]

theorem audition_region_start_log (s : Auditioner) (r : Region)
    (h : staged_region s = some r) :
    (audition_region_start s).log = s.log ++
      [Event.reset_panner,
       Event.disk_seek (if r.sync_dir < 0 then 0
          else if s._midi_audition then s._import_position + r.sync_offset
          else r.sync_offset)] := by
  have h2 : staged_region
      { s.emit Event.reset_panner with _seek_frame := -1, _seeking := false } = some r := by
    simpa [staged_region, Auditioner.emit] using h
  unfold audition_region_start
  simp only [h2]
  simp [Auditioner.emit]

theorem audition_region_log (env : Env) (s : Auditioner) (r : Region) :
    (audition_region env s r).log = s.log ++ stage_events env s r := by
  unfold audition_region stage_events
  rw [cancel_if_auditioning]
  cases hkind : r.kind
  · -- audio
    have hst : ∀ t : Auditioner, t._midi_audition = false →
        t.the_region = some { r with position := 0 } →
        staged_region t = some { r with position := 0 } := by
      intro t h1 h2
      simp [staged_region, h1, h2]
    simp only [audition_region_audio, configure_processors, finish_events]
    by_cases hcfg : env.configure_processors_rv = 0
    · cases ha : s._synth_added
      · have := audition_region_start_log
          ({ s with _auditioning := 0, _midi_audition := false, midi_region := none,
                    _import_position := 0,
                    the_region := some { r with position := 0 } }.emit
              Event.configure_processors_call)
          { r with position := 0 } (hst _ rfl rfl)
        simpa [ha, hcfg, Auditioner.emit, start_offset, hkind] using this
      · have := audition_region_start_log
          ({ remove_processor s.asynth { s with _auditioning := 0, _midi_audition := false } with
                    _synth_added := false, midi_region := none, _import_position := 0,
                    the_region := some { r with position := 0 } }.emit
              Event.configure_processors_call)
          { r with position := 0 } (hst _ rfl rfl)
        simpa [ha, hcfg, Auditioner.emit, remove_processor, start_offset, hkind] using this
    · cases ha : s._synth_added <;>
        simp [ha, hcfg, Auditioner.emit, remove_processor]
  · -- midi
    obtain ⟨a1, a2, a3⟩ := midi_setup_staged env { s with _auditioning := 0 } r
    obtain ⟨b1, b2, b3⟩ := midi_insert_staged env
      (audition_region_midi_setup env { s with _auditioning := 0 } r)
    rw [a1] at b1
    rw [a2] at b2
    rw [a3] at b3
    have hl : (audition_region_midi_insert env
        (audition_region_midi_setup env { s with _auditioning := 0 } r)).log
        = s.log ++ (midi_setup_events env s
            ++ midi_insert_events env
              (audition_region_midi_setup env { s with _auditioning := 0 } r)) := by
      rw [midi_insert_log, midi_setup_log]
      simp [midi_setup_events, List.append_assoc]
    simp only [audition_region_midi, configure_processors, finish_events]
    by_cases hcfg : env.configure_processors_rv = 0
    · have := audition_region_start_log
        ((audition_region_midi_insert env
          (audition_region_midi_setup env { s with _auditioning := 0 } r)).emit
            Event.configure_processors_call) r
        (by simp [staged_region, Auditioner.emit, b1, b2])
      simpa [hcfg, Auditioner.emit, b1, b3, hl, start_offset, hkind, List.append_assoc]
        using this
    · simp [hcfg, Auditioner.emit, hl, List.append_assoc]
  · simp [Auditioner.emit]

theorem emitted_audition_region (env : Env) (s : Auditioner) (r : Region) :
    emitted s (audition_region env s r) = stage_events env s r := by
  simp [emitted, audition_region_log]

theorem audition_region_start_synth_added (s : Auditioner) :
    (audition_region_start s)._synth_added = s._synth_added := by
  unfold audition_region_start
  simp only []
  split <;> simp [Auditioner.emit]

theorem audition_region_start_processors (s : Auditioner) :
    (audition_region_start s)._processors = s._processors := by
  unfold audition_region_start
  simp only []
  split <;> simp [Auditioner.emit]

/-! ## Claims about staging: synth removal, errors, start offset -/

/-- C11: when `audition_region` is given an audio region, or
`prepare_playlist` is called, while the synth is inserted (`_synth_added`
set, the slot holding `p`), `remove_processor` is called with the synth
before `configure_processors`, the synth is no longer in the processor list
and `_synth_added` is false when the call returns, whatever
`configure_processors` returns. -/
theorem audio_target_removes_synth (env : Env) (s : Auditioner) (r : Region) (p : Processor)
    (hk : r.kind = RegionKind.audio) (hadded : s._synth_added = true)
    (hsynth : s.asynth = some p) :
    (audition_region env s r)._synth_added = false
    ∧ p ∉ (audition_region env s r)._processors
    ∧ emitted s (audition_region env s r)
        = Event.remove_processor_call (some p) :: finish_events env r
    ∧ (prepare_playlist s)._synth_added = false
    ∧ p ∉ (prepare_playlist s)._processors
    ∧ emitted s (prepare_playlist s) = [Event.remove_processor_call (some p)] := by
  obtain ⟨c1, c2⟩ : (audition_region_audio env { s with _auditioning := 0 } r)._synth_added
        = false
      ∧ p ∉ (audition_region_audio env { s with _auditioning := 0 } r)._processors := by
    unfold audition_region_audio configure_processors
    by_cases hcfg : env.configure_processors_rv = 0 <;>
      simp [hcfg, hadded, hsynth, audition_region_start_synth_added,
        audition_region_start_processors, Auditioner.emit, remove_processor]
  refine ⟨?_, ?_, ?_, ?_, ?_, ?_⟩
  · unfold audition_region
    rw [cancel_if_auditioning]
    simpa only [hk] using c1
  · unfold audition_region
    rw [cancel_if_auditioning]
    simpa only [hk] using c2
  · rw [emitted_audition_region]
    simp [stage_events, hk, hadded, hsynth]
  · simp [prepare_playlist, hadded]
  · simp [prepare_playlist, hadded, remove_processor, hsynth]
  · simp [prepare_playlist, hadded, remove_processor, hsynth, emitted, Auditioner.emit]

/-- Witness of C11: the audio example staged while the synth of the MIDI
example is in the chain. -/
theorem audio_target_removes_synth_witness :
    audio_example.kind = RegionKind.audio
    ∧ synth_inserted_example._synth_added = true
    ∧ synth_inserted_example.asynth
        = some (Processor.plugin_insert 0 "http://gareus.org/oss/lv2/gmsynth")
    ∧ Processor.plugin_insert 0 "http://gareus.org/oss/lv2/gmsynth"
        ∈ synth_inserted_example._processors
    ∧ (audition_region env_ok synth_inserted_example audio_example)._synth_added = false
    ∧ Processor.plugin_insert 0 "http://gareus.org/oss/lv2/gmsynth"
        ∉ (audition_region env_ok synth_inserted_example audio_example)._processors :=
  ⟨rfl, by decide, by decide, by decide,
    (audio_target_removes_synth env_ok synth_inserted_example audio_example
      (Processor.plugin_insert 0 "http://gareus.org/oss/lv2/gmsynth") rfl (by decide)
      (by decide)).1,
    (audio_target_removes_synth env_ok synth_inserted_example audio_example
      (Processor.plugin_insert 0 "http://gareus.org/oss/lv2/gmsynth") rfl (by decide)
      (by decide)).2.1⟩

/-- C12 (counterexample): staging an unsupported region while an audition is
playing changes the transport phase: `_auditioning` goes from 1 to 0, the
phase from Playing to Idle. -/
theorem unsupported_region_cancels_audition :
    unsupported_example.kind = RegionKind.other
    ∧ playing_example._auditioning = 1
    ∧ phase playing_example = TransportPhase.Playing
    ∧ (audition_region env_ok playing_example unsupported_example)._auditioning = 0
    ∧ phase (audition_region env_ok playing_example unsupported_example)
        = TransportPhase.Idle := by
  decide

/-- C12 (amended): for a region that is neither audio nor MIDI,
`audition_region` reports the unsupported-media error and changes nothing
but `_auditioning` and the log: `_seeking`, `_seek_frame`, `current_frame`,
`length` and `_import_position` are as before the call, and `_auditioning`
is 0 afterwards, so it is unchanged when the engine was idle and an audition
in progress is cancelled. -/
theorem unsupported_region_rejected (env : Env) (s : Auditioner) (r : Region)
    (hk : r.kind = RegionKind.other) :
    audition_region env s r
      = { s with
          _auditioning := 0
          log := s.log ++ [Event.error_msg
            "Auditioning of regions other than Audio or Midi is not supported."] }
    ∧ emitted s (audition_region env s r)
      = [Event.error_msg "Auditioning of regions other than Audio or Midi is not supported."]
    ∧ (audition_region env s r)._auditioning = 0
    ∧ (s._auditioning = 0 → (audition_region env s r)._auditioning = s._auditioning)
    ∧ (audition_region env s r)._seeking = s._seeking
    ∧ (audition_region env s r)._seek_frame = s._seek_frame
    ∧ (audition_region env s r).current_frame = s.current_frame
    ∧ (audition_region env s r).length = s.length
    ∧ (audition_region env s r)._import_position = s._import_position := by
  have h : audition_region env s r
      = { s with
          _auditioning := 0
          log := s.log ++ [Event.error_msg
            "Auditioning of regions other than Audio or Midi is not supported."] } := by
    unfold audition_region
    rw [cancel_if_auditioning]
    simp [hk, Auditioner.emit]
  refine ⟨h, ?_, ?_, ?_, ?_, ?_, ?_, ?_, ?_⟩
  · rw [emitted_audition_region]
    simp [stage_events, hk]
  · rw [h]
  · intro h0
    rw [h, h0]
  all_goals rw [h]

/-- Witness of C12 (amended) on the playing example. -/
theorem unsupported_region_rejected_witness :
    unsupported_example.kind = RegionKind.other
    ∧ (audition_region env_ok playing_example unsupported_example).current_frame
        = playing_example.current_frame
    ∧ (audition_region env_ok playing_example unsupported_example).length
        = playing_example.length :=
  ⟨rfl,
    (unsupported_region_rejected env_ok playing_example unsupported_example rfl).2.2.2.2.2.2.1,
    (unsupported_region_rejected env_ok playing_example unsupported_example
      rfl).2.2.2.2.2.2.2.1⟩

theorem disk_seek_not_mem_lookup_events (env : Env) (cfg : Config) (f : Int) :
    Event.disk_seek f ∉ lookup_events env cfg := by
  unfold lookup_events
  split_ifs <;> simp

theorem disk_seek_not_mem_midi_setup_events (env : Env) (s : Auditioner) (f : Int) :
    Event.disk_seek f ∉ midi_setup_events env s := by
  unfold midi_setup_events
  have := disk_seek_not_mem_lookup_events env s.config f
  split_ifs <;> simp [this]

theorem disk_seek_not_mem_midi_insert_events (env : Env) (s : Auditioner) (f : Int) :
    Event.disk_seek f ∉ midi_insert_events env s := by
  unfold midi_insert_events
  split
  · split_ifs <;> simp
  · simp

theorem disk_seek_mem_stage_events (env : Env) (s : Auditioner) (r : Region) (f : Int)
    (hk : r.kind ≠ RegionKind.other) (hcfg : env.configure_processors_rv = 0) :
    Event.disk_seek f ∈ stage_events env s r ↔ f = start_offset r := by
  unfold stage_events
  cases hkind : r.kind
  · by_cases ha : s._synth_added <;> simp [ha, finish_events, hcfg, configure_error]
  · simp [finish_events, hcfg, disk_seek_not_mem_midi_setup_events,
      disk_seek_not_mem_midi_insert_events]
  · exact absurd hkind hk

/-- C13: for an audio or MIDI region whose sync direction is negative, a
successful `audition_region` seeks the disk reader to frame 0, and to no
other frame, and sets `current_frame` to 0. -/
theorem negative_sync_starts_at_zero (env : Env) (s : Auditioner) (r : Region)
    (hk : r.kind ≠ RegionKind.other) (hcfg : env.configure_processors_rv = 0)
    (hdir : r.sync_dir < 0) :
    (audition_region env s r)._auditioning = 1
    ∧ (audition_region env s r).current_frame = 0
    ∧ Event.disk_seek 0 ∈ emitted s (audition_region env s r)
    ∧ ∀ f, Event.disk_seek f ∈ emitted s (audition_region env s r) → f = 0 := by
  obtain ⟨f1, _, _, _, _, f6⟩ := audition_region_ok_fields env s r hk hcfg
  have hoff : start_offset r = 0 := by simp [start_offset, hdir]
  refine ⟨f1, ?_, ?_, ?_⟩
  · rw [f6]
    simp [hdir]
  · rw [emitted_audition_region, disk_seek_mem_stage_events env s r 0 hk hcfg, hoff]
  · intro f hf
    rw [emitted_audition_region, disk_seek_mem_stage_events env s r f hk hcfg, hoff] at hf
    exact hf

/-- Witness of C13: the MIDI example, whose sync direction is -1. -/
theorem negative_sync_starts_at_zero_witness :
    midi_example.kind ≠ RegionKind.other ∧ env_ok.configure_processors_rv = 0
    ∧ midi_example.sync_dir < 0
    ∧ (audition_region env_ok fresh_with_synth midi_example).current_frame = 0
    ∧ Event.disk_seek 0 ∈ emitted fresh_with_synth
        (audition_region env_ok fresh_with_synth midi_example) :=
  ⟨by decide, rfl, by decide,
    (negative_sync_starts_at_zero env_ok fresh_with_synth midi_example (by decide) rfl
      (by decide)).2.1,
    (negative_sync_starts_at_zero env_ok fresh_with_synth midi_example (by decide) rfl
      (by decide)).2.2.1⟩

/-- C14: from any prior state, a successful `audition_region` of an audio or
MIDI region leaves `_auditioning = 1`, `_seek_frame = -1` and
`_seeking = false`: the engine is Playing with no seek outstanding. -/
theorem stage_success_is_playing (env : Env) (s : Auditioner) (r : Region)
    (hk : r.kind ≠ RegionKind.other) (hcfg : env.configure_processors_rv = 0) :
    (audition_region env s r)._auditioning = 1
    ∧ (audition_region env s r)._seek_frame = -1
    ∧ (audition_region env s r)._seeking = false
    ∧ phase (audition_region env s r) = TransportPhase.Playing := by
  obtain ⟨f1, f2, f3, _, _, _⟩ := audition_region_ok_fields env s r hk hcfg
  refine ⟨f1, f3, f2, ?_⟩
  simp [phase, f1, f2, f3]

/-- Witness of C14: the audio example staged while a seek is in progress. -/
theorem stage_success_is_playing_witness :
    audio_example.kind ≠ RegionKind.other ∧ env_ok.configure_processors_rv = 0
    ∧ phase seeking_example = TransportPhase.Seeking
    ∧ phase (audition_region env_ok seeking_example audio_example) = TransportPhase.Playing :=
  ⟨by decide, rfl, by decide,
    (stage_success_is_playing env_ok seeking_example audio_example (by decide) rfl).2.2.2⟩

theorem midi_setup_window (env : Env) (s : Auditioner) (r : Region) :
    (audition_region_midi_setup env s r)._auditioning = s._auditioning
    ∧ (audition_region_midi_setup env s r).current_frame = s.current_frame
    ∧ (audition_region_midi_setup env s r).length = s.length := by
  unfold audition_region_midi_setup
  cases h1 : s._synth_changed <;> cases h2 : s._synth_added <;>
    simp [h1, h2, Auditioner.emit, remove_processor]
  all_goals rw [lookup_synth_frame]
  all_goals simp

theorem midi_insert_window (env : Env) (s : Auditioner) :
    (audition_region_midi_insert env s)._auditioning = s._auditioning
    ∧ (audition_region_midi_insert env s).current_frame = s.current_frame
    ∧ (audition_region_midi_insert env s).length = s.length := by
  unfold audition_region_midi_insert add_processor
  cases h1 : s.asynth <;> cases h2 : s._synth_added <;>
    by_cases h3 : env.add_processor_rv = 0 <;>
    simp [h2, h3, Auditioner.emit]

/-- C15: for an audio or MIDI region, when `configure_processors` fails
during `audition_region` the diagnostic is emitted (last, with no disk seek)
and the call returns with `_auditioning = 0`, whether or not an audition was
playing before, and with `current_frame` and `length` as they were. -/
theorem configure_failure_aborts_stage (env : Env) (s : Auditioner) (r : Region)
    (hk : r.kind ≠ RegionKind.other) (hcfg : env.configure_processors_rv ≠ 0) :
    configure_error r ∈ emitted s (audition_region env s r)
    ∧ (∀ f, Event.disk_seek f ∉ emitted s (audition_region env s r))
    ∧ (audition_region env s r)._auditioning = 0
    ∧ phase (audition_region env s r) = TransportPhase.Idle
    ∧ (audition_region env s r).current_frame = s.current_frame
    ∧ (audition_region env s r).length = s.length := by
  have hfields : (audition_region env s r)._auditioning = 0
      ∧ (audition_region env s r).current_frame = s.current_frame
      ∧ (audition_region env s r).length = s.length := by
    unfold audition_region
    rw [cancel_if_auditioning]
    cases hkind : r.kind
    · cases ha : s._synth_added <;>
        simp [audition_region_audio, configure_processors, hcfg, ha, Auditioner.emit,
          remove_processor]
    · obtain ⟨a1, a2, a3⟩ := midi_setup_window env { s with _auditioning := 0 } r
      obtain ⟨b1, b2, b3⟩ := midi_insert_window env
        (audition_region_midi_setup env { s with _auditioning := 0 } r)
      simp [audition_region_midi, configure_processors, hcfg, Auditioner.emit, a1, a2, a3, b1,
        b2, b3]
    · exact absurd hkind hk
  obtain ⟨g1, g2, g3⟩ := hfields
  refine ⟨?_, ?_, g1, ?_, g2, g3⟩
  · rw [emitted_audition_region]
    unfold stage_events
    cases hkind : r.kind
    · simp [finish_events, hcfg]
    · simp [finish_events, hcfg]
    · exact absurd hkind hk
  · intro f
    rw [emitted_audition_region]
    unfold stage_events
    cases hkind : r.kind
    · by_cases ha : s._synth_added <;> simp [ha, finish_events, hcfg, configure_error]
    · simp [finish_events, hcfg, configure_error, disk_seek_not_mem_midi_setup_events,
        disk_seek_not_mem_midi_insert_events]
    · exact absurd hkind hk
  · simp [phase, g1]

/-- Witness of C15: the MIDI example staged while the playing example is
auditioning, with a failing `configure_processors`. -/
theorem configure_failure_aborts_stage_witness :
    midi_example.kind ≠ RegionKind.other ∧ env_configure_fails.configure_processors_rv ≠ 0
    ∧ playing_example._auditioning = 1
    ∧ (audition_region env_configure_fails playing_example midi_example)._auditioning = 0
    ∧ (audition_region env_configure_fails playing_example midi_example).length
        = playing_example.length :=
  ⟨by decide, by decide, by decide,
    (configure_failure_aborts_stage env_configure_fails playing_example midi_example
      (by decide) (by decide)).2.2.1,
    (configure_failure_aborts_stage env_configure_fails playing_example midi_example
      (by decide) (by decide)).2.2.2.2.2⟩

/-! ## Counting ticks -/

theorem play_audition_log (locked : Bool) (s : Auditioner) (nframes : Int) :
    (play_audition locked s nframes).1.log = s.log ++ step_events locked s nframes := by
  by_cases h : s._auditioning = 0
  · simp [play_audition_idle locked s nframes h, step_events, h, silence, Auditioner.emit]
  · simp [play_audition_eq locked s nframes h, step_events, h, tick_state]

theorem run_ticks_log (nframes : Int) (locks : List Bool) (s : Auditioner) :
    (run_ticks nframes locks s).log = s.log ++ run_events nframes locks s := by
  induction locks generalizing s with
  | nil => simp [run_ticks, run_events]
  | cons l ls ih => simp [run_ticks, run_events, ih, play_audition_log, List.append_assoc]

theorem emitted_run_ticks (nframes : Int) (locks : List Bool) (s : Auditioner) :
    emitted s (run_ticks nframes locks s) = run_events nframes locks s := by
  simp [emitted, run_ticks_log]

theorem completions_roll_events (locked queue_panic : Bool) (procs : List Processor)
    (nframes start_frame end_frame : Int) :
    completions (roll_events locked queue_panic procs nframes start_frame end_frame) = 0 := by
  unfold completions
  apply List.count_eq_zero_of_not_mem
  simp [mem_roll_events, panic_messages]

theorem completions_step_events (locked : Bool) (s : Auditioner) (nframes : Int) :
    completions (step_events locked s nframes)
      = if s._auditioning ≠ 0 ∧ at_end s nframes = true then 1 else 0 := by
  by_cases h : s._auditioning = 0
  · simp [step_events, h, completions]
  · have hr := completions_roll_events locked s._queue_panic s._processors
      (to_pframes_t (this_nframes s nframes)) s.current_frame (s.current_frame + nframes)
    unfold completions at hr
    by_cases h1 : resumes s <;> by_cases h2 : starts_seek s <;>
      by_cases h3 : at_end s nframes <;> by_cases h4 : seeking_now s <;>
      simp [step_events, tick_events, completions, h, h1, h2, h3, h4, List.count_append, hr,
        List.count_cons]

theorem play_audition_playing_step (lo len pos : Int) (locked : Bool) (s : Auditioner)
    (nframes : Int) (h : Rolling lo len pos s) (haud : s._auditioning ≠ 0) :
    (play_audition locked s nframes).1.current_frame
        = s.current_frame + min nframes (len + pos - s.current_frame)
    ∧ (play_audition locked s nframes).1._auditioning
        = (if len + pos ≤ s.current_frame + min nframes (len + pos - s.current_frame) then 0
           else s._auditioning)
    ∧ completions (step_events locked s nframes)
        = (if len + pos ≤ s.current_frame + min nframes (len + pos - s.current_frame) then 1
           else 0) := by
  obtain ⟨h1, h2, h3, h4, _, _, _⟩ := h
  have hnow : seeking_now s = false := by simp [seeking_now, h1]
  have hr : len - s.current_frame + pos = len + pos - s.current_frame := by ring
  have hfa : frame_after s nframes
      = s.current_frame + min nframes (len + pos - s.current_frame) := by
    simp [frame_after, this_nframes, hnow, h3, h4, hr]
  have hend : at_end s nframes
      = decide (len + pos ≤ s.current_frame + min nframes (len + pos - s.current_frame)) := by
    simp [at_end, hfa, h3, h4]
  rw [play_audition_eq locked s nframes haud, completions_step_events]
  refine ⟨?_, ?_, ?_⟩
  · simp [tick_state, hfa]
  · simp [tick_state, hend]
  · simp [haud, hend]

theorem run_ticks_idle (nframes : Int) (locks : List Bool) (s : Auditioner)
    (h : s._auditioning = 0) :
    (run_ticks nframes locks s).current_frame = s.current_frame
    ∧ (run_ticks nframes locks s)._auditioning = 0
    ∧ completions (run_events nframes locks s) = 0 := by
  induction locks generalizing s with
  | nil => simp [run_ticks, run_events, completions, h]
  | cons l ls ih =>
    have hs : (play_audition l s nframes).1._auditioning = 0 := by
      rw [play_audition_idle l s nframes h]
      exact h
    obtain ⟨i1, i2, i3⟩ := ih _ hs
    have hc : (play_audition l s nframes).1.current_frame = s.current_frame := by
      rw [play_audition_idle l s nframes h]
      rfl
    refine ⟨?_, ?_, ?_⟩
    · simp only [run_ticks]
      rw [i1, hc]
    · simp only [run_ticks]
      exact i2
    · unfold completions at i3 ⊢
      simp [run_events, List.count_append, i3, step_events, h]

/-- While more than a full buffer remains before the end of the region, each
tick advances by exactly `nframes`, the engine stays auditioning and no
completion is signalled. -/
theorem run_ticks_full (lo len pos nframes : Int) (hn : 0 < nframes) (locks : List Bool)
    (s : Auditioner) (h : Rolling lo len pos s) (haud : s._auditioning ≠ 0)
    (hroom : s.current_frame + (locks.length : Int) * nframes < len + pos) :
    (run_ticks nframes locks s).current_frame
        = s.current_frame + (locks.length : Int) * nframes
    ∧ (run_ticks nframes locks s)._auditioning = s._auditioning
    ∧ completions (run_events nframes locks s) = 0 := by
  induction locks generalizing s with
  | nil => simp [run_ticks, run_events, completions]
  | cons l ls ih =>
    have hlen : ((l :: ls).length : Int) * nframes = nframes + (ls.length : Int) * nframes := by
      simp only [List.length_cons]
      push_cast
      ring
    rw [hlen] at hroom ⊢
    have hls : 0 ≤ (ls.length : Int) * nframes :=
      mul_nonneg (Int.ofNat_nonneg _) (le_of_lt hn)
    obtain ⟨p1, p2, p3⟩ := play_audition_playing_step lo len pos l s nframes h haud
    have hmin : min nframes (len + pos - s.current_frame) = nframes :=
      min_eq_left (by linarith)
    have hnot : ¬ (len + pos ≤ s.current_frame + nframes) := by linarith
    rw [hmin] at p1 p2 p3
    simp only [hnot, if_false] at p2 p3
    have hroll := (play_audition_rolling lo len pos l s nframes hn h).1
    have haud2 : (play_audition l s nframes).1._auditioning ≠ 0 := by
      rw [p2]
      exact haud
    obtain ⟨i1, i2, i3⟩ := ih _ hroll haud2 (by rw [p1]; linarith)
    refine ⟨?_, ?_, ?_⟩
    · simp only [run_ticks]
      rw [i1, p1]
      ring
    · simp only [run_ticks]
      rw [i2, p2]
    · unfold completions at i3 p3 ⊢
      simp [run_events, List.count_append, i3, p3]

/-- After `k` full ticks the tick that reaches the end of the region advances
by what remains, leaves the engine idle and signals completion; later ticks
change nothing, so completion is signalled exactly once. -/
theorem run_ticks_completes (lo len pos nframes : Int) (hn : 0 < nframes) (k : Nat) :
    ∀ (locks : List Bool) (s : Auditioner), Rolling lo len pos s → s._auditioning ≠ 0 →
      s.current_frame + (k : Int) * nframes < len + pos →
      len + pos ≤ s.current_frame + ((k : Int) + 1) * nframes →
      k < locks.length →
      (run_ticks nframes locks s).current_frame = len + pos
      ∧ (run_ticks nframes locks s)._auditioning = 0
      ∧ completions (run_events nframes locks s) = 1 := by
  induction k with
  | zero =>
    intro locks s h haud h1 h2 hk
    cases locks with
    | nil => simp at hk
    | cons l ls =>
      simp only [Nat.cast_zero, zero_mul, add_zero, zero_add, one_mul] at h1 h2
      obtain ⟨p1, p2, p3⟩ := play_audition_playing_step lo len pos l s nframes h haud
      have hmin : min nframes (len + pos - s.current_frame) = len + pos - s.current_frame :=
        min_eq_right (by linarith)
      rw [hmin] at p1 p2 p3
      have hle : len + pos ≤ s.current_frame + (len + pos - s.current_frame) := by linarith
      simp only [hle, if_true] at p2 p3
      obtain ⟨i1, i2, i3⟩ := run_ticks_idle nframes ls _ p2
      refine ⟨?_, ?_, ?_⟩
      · simp only [run_ticks]
        rw [i1, p1]
        ring
      · simp only [run_ticks]
        exact i2
      · unfold completions at i3 p3 ⊢
        simp [run_events, List.count_append, i3, p3]
  | succ k ih =>
    intro locks s h haud h1 h2 hk
    cases locks with
    | nil => simp at hk
    | cons l ls =>
      have hk1 : ((k + 1 : Nat) : Int) * nframes = nframes + (k : Int) * nframes := by
        push_cast
        ring
      have hkn : 0 ≤ (k : Int) * nframes := mul_nonneg (Int.ofNat_nonneg _) (le_of_lt hn)
      rw [hk1] at h1
      obtain ⟨p1, p2, p3⟩ := play_audition_playing_step lo len pos l s nframes h haud
      have hmin : min nframes (len + pos - s.current_frame) = nframes :=
        min_eq_left (by linarith)
      have hnot : ¬ (len + pos ≤ s.current_frame + nframes) := by linarith
      rw [hmin] at p1 p2 p3
      simp only [hnot, if_false] at p2 p3
      have hroll := (play_audition_rolling lo len pos l s nframes hn h).1
      have haud2 : (play_audition l s nframes).1._auditioning ≠ 0 := by
        rw [p2]
        exact haud
      have h2' : len + pos ≤ (play_audition l s nframes).1.current_frame
          + ((k : Int) + 1) * nframes := by
        rw [p1]
        have : (((k + 1 : Nat) : Int) + 1) * nframes
            = nframes + ((k : Int) + 1) * nframes := by
          push_cast
          ring
        rw [this] at h2
        linarith
      obtain ⟨i1, i2, i3⟩ := ih ls _ hroll haud2 (by rw [p1]; linarith) h2'
        (by simpa using hk)
      refine ⟨?_, ?_, ?_⟩
      · simp only [run_ticks]
        exact i1
      · simp only [run_ticks]
        exact i2
      · unfold completions at i3 p3 ⊢
        simp [run_events, List.count_append, i3, p3]

theorem staged_rolling (env : Env) (s : Auditioner) (r : Region)
    (hk : r.kind ≠ RegionKind.other) (hcfg : env.configure_processors_rv = 0)
    (hend : start_offset r ≤ r.length + (if r.kind = RegionKind.midi then r.position else 0)) :
    Rolling (start_offset r) r.length (if r.kind = RegionKind.midi then r.position else 0)
      (audition_region env s r)
    ∧ (audition_region env s r)._auditioning = 1
    ∧ (audition_region env s r).current_frame = start_offset r := by
  obtain ⟨f1, f2, f3, f4, f5, f6⟩ := audition_region_ok_fields env s r hk hcfg
  have hcf : (audition_region env s r).current_frame = start_offset r := by
    rw [f6]
    rfl
  refine ⟨⟨f2, by rw [f3]; decide, f4, f5, by rw [hcf], by rw [hcf]; exact hend, ?_⟩, f1, hcf⟩
  intro h0
  rw [f1] at h0
  exact absurd h0 (by decide)

/-- C16 (counterexample): the audio example (48000 frames, start offset 0)
ticked with 512 frames is at frame 47616 after 93 ticks and at frame 48000,
idle, after 94 ticks: the 94th tick advances 384 frames, not 512, and the
95th tick advances nothing, so no tick advances 32 frames. -/
theorem ticks_94th_is_partial :
    audio_example.length = 48000
    ∧ (audition_region env_ok fresh_without_synth audio_example).current_frame = 0
    ∧ (run_ticks 512 (List.replicate 93 true)
        (audition_region env_ok fresh_without_synth audio_example)).current_frame = 47616
    ∧ (run_ticks 512 (List.replicate 94 true)
        (audition_region env_ok fresh_without_synth audio_example)).current_frame = 48000
    ∧ (run_ticks 512 (List.replicate 94 true)
        (audition_region env_ok fresh_without_synth audio_example))._auditioning = 0
    ∧ (run_ticks 512 (List.replicate 95 true)
        (audition_region env_ok fresh_without_synth audio_example)).current_frame = 48000 := by
  obtain ⟨hroll, haud, hcf⟩ := staged_rolling env_ok fresh_without_synth audio_example
    (by decide) rfl (by decide)
  have haud0 : (audition_region env_ok fresh_without_synth audio_example)._auditioning ≠ 0 := by
    rw [haud]
    decide
  have hs : start_offset audio_example = 0 := by decide
  rw [hs] at hcf
  have hT : audio_example.length
      + (if audio_example.kind = RegionKind.midi then audio_example.position else 0)
      = 48000 := by decide
  have h93 := run_ticks_full _ _ _ 512 (by decide) (List.replicate 93 true) _ hroll haud0
    (by rw [hcf, hT]; simp)
  have h94 := run_ticks_completes _ _ _ 512 (by decide) 93 (List.replicate 94 true) _ hroll
    haud0 (by rw [hcf, hT]; simp) (by rw [hcf, hT]; simp) (by simp)
  have h95 := run_ticks_completes _ _ _ 512 (by decide) 93 (List.replicate 95 true) _ hroll
    haud0 (by rw [hcf, hT]; simp) (by rw [hcf, hT]; simp) (by simp)
  refine ⟨rfl, hcf, ?_, ?_, h94.2.1, ?_⟩
  · rw [h93.1, hcf]
    simp
  · rw [h94.1, hT]
  · rw [h95.1, hT]

/-- C16 (amended): for an audio region of 48000 frames staged at start offset
0 and ticked with a buffer of 512 frames, whatever the try-lock does, each
of the first 93 ticks advances 512 frames without signalling completion, the
94th tick is the final partial tick and advances 384 frames to frame 48000,
and from then on the engine is idle and completion has been signalled
exactly once. -/
theorem ticks_48000_by_512 (env : Env) (s : Auditioner) (r : Region)
    (hk : r.kind = RegionKind.audio) (hcfg : env.configure_processors_rv = 0)
    (hlen : r.length = 48000) (hstart : start_offset r = 0) :
    (audition_region env s r).current_frame = 0
    ∧ (∀ locks : List Bool, locks.length ≤ 93 →
        (run_ticks 512 locks (audition_region env s r)).current_frame = 512 * locks.length
        ∧ (run_ticks 512 locks (audition_region env s r))._auditioning = 1
        ∧ completions (emitted (audition_region env s r)
            (run_ticks 512 locks (audition_region env s r))) = 0)
    ∧ (∀ (locks : List Bool) (b : Bool), locks.length = 93 →
        (run_ticks 512 (locks ++ [b]) (audition_region env s r)).current_frame
          = (run_ticks 512 locks (audition_region env s r)).current_frame + 384)
    ∧ (∀ locks : List Bool, 94 ≤ locks.length →
        (run_ticks 512 locks (audition_region env s r)).current_frame = 48000
        ∧ (run_ticks 512 locks (audition_region env s r))._auditioning = 0
        ∧ completions (emitted (audition_region env s r)
            (run_ticks 512 locks (audition_region env s r))) = 1) := by
  have hkind : r.kind ≠ RegionKind.other := by
    rw [hk]
    decide
  have hpos : (if r.kind = RegionKind.midi then r.position else 0) = 0 := by simp [hk]
  obtain ⟨hroll, haud, hcf⟩ := staged_rolling env s r hkind hcfg
    (by rw [hstart, hlen, hpos]; decide)
  rw [hstart] at hcf
  rw [hlen, hpos] at hroll
  have haud0 : (audition_region env s r)._auditioning ≠ 0 := by
    rw [haud]
    decide
  have hfull : ∀ locks : List Bool, locks.length ≤ 93 →
      (run_ticks 512 locks (audition_region env s r)).current_frame = 512 * locks.length
      ∧ (run_ticks 512 locks (audition_region env s r))._auditioning = 1
      ∧ completions (emitted (audition_region env s r)
          (run_ticks 512 locks (audition_region env s r))) = 0 := by
    intro locks hl
    obtain ⟨a1, a2, a3⟩ := run_ticks_full _ _ _ 512 (by decide) locks _ hroll haud0
      (by rw [hcf]; omega)
    refine ⟨?_, ?_, ?_⟩
    · rw [a1, hcf]
      ring
    · rw [a2, haud]
    · rw [emitted_run_ticks]
      exact a3
  have hdone : ∀ locks : List Bool, 94 ≤ locks.length →
      (run_ticks 512 locks (audition_region env s r)).current_frame = 48000
      ∧ (run_ticks 512 locks (audition_region env s r))._auditioning = 0
      ∧ completions (emitted (audition_region env s r)
          (run_ticks 512 locks (audition_region env s r))) = 1 := by
    intro locks hl
    obtain ⟨a1, a2, a3⟩ := run_ticks_completes _ _ _ 512 (by decide) 93 locks _ hroll haud0
      (by rw [hcf]; decide) (by rw [hcf]; decide) (by omega)
    refine ⟨?_, a2, ?_⟩
    · rw [a1]
      rfl
    · rw [emitted_run_ticks]
      exact a3
  refine ⟨hcf, hfull, ?_, hdone⟩
  intro locks b hl
  rw [(hdone (locks ++ [b]) (by simp [hl])).1, (hfull locks (by omega)).1, hl]
  rfl

/-- Witness of C16 (amended) on the audio example. -/
theorem ticks_48000_by_512_witness :
    audio_example.kind = RegionKind.audio ∧ env_ok.configure_processors_rv = 0
    ∧ audio_example.length = 48000 ∧ start_offset audio_example = 0
    ∧ (∀ locks : List Bool, 94 ≤ locks.length →
        (run_ticks 512 locks
          (audition_region env_ok fresh_without_synth audio_example)).current_frame = 48000
        ∧ (run_ticks 512 locks
          (audition_region env_ok fresh_without_synth audio_example))._auditioning = 0
        ∧ completions (emitted (audition_region env_ok fresh_without_synth audio_example)
            (run_ticks 512 locks
              (audition_region env_ok fresh_without_synth audio_example))) = 1) :=
  ⟨rfl, rfl, rfl, by decide,
    (ticks_48000_by_512 env_ok fresh_without_synth audio_example rfl rfl rfl
      (by decide)).2.2.2⟩

/-! ## Claims about the window handed to `roll`, the lock and the progress signal -/

/-- C17 (the code at the failing input): on the final partial tick of a
region of 100 frames, at frame 90 with a buffer of 30 frames, `roll` is
called with the frame count 10 but the window `[90, 120)`, and
`process_output_buffers` receives the same window: its end, 120, lies past
the end of the region, 100. -/
theorem roll_window_past_region_end :
    final_tick_example._auditioning = 1
    ∧ final_tick_example.length + final_tick_example._import_position = 100
    ∧ emitted final_tick_example (play_audition true final_tick_example 30).1
        = [Event.roll_call 10 90 120, Event.process_output_buffers 90 120 10,
           Event.flush_buffers 10, Event.AuditionProgress 100 100,
           Event.session_cancel_audition]
    ∧ ¬ ((120 : Int) ≤ final_tick_example.length + final_tick_example._import_position) := by
  decide

theorem countP_progress_roll_events (locked queue_panic : Bool) (procs : List Processor)
    (nframes start_frame end_frame : Int) :
    (roll_events locked queue_panic procs nframes start_frame end_frame).countP
      Event.is_progress = 0 := by
  rw [List.countP_eq_zero]
  intro e he
  rw [mem_roll_events] at he
  rcases he with rfl | ⟨_, ⟨_, chn, _, hm⟩ | rfl | ⟨rfl, _⟩⟩
  · simp [Event.is_progress]
  · simp only [panic_messages, List.mem_cons, List.mem_singleton, List.not_mem_nil,
      or_false] at hm
    rcases hm with rfl | rfl | rfl <;> simp [Event.is_progress]
  · simp [Event.is_progress]
  · simp [Event.is_progress]

/-- C19: on an auditioning tick `AuditionProgress` is emitted once when
`_seeking` is false at the end of the tick and not at all otherwise, and its
arguments are `current_frame - _import_position` and `length` as they stand
at the end of the tick. -/
theorem play_audition_progress (locked : Bool) (s : Auditioner) (nframes : Int)
    (haud : s._auditioning ≠ 0) :
    (emitted s (play_audition locked s nframes).1).countP Event.is_progress
        = (if (play_audition locked s nframes).1._seeking then 0 else 1)
    ∧ ((∃ a b, Event.AuditionProgress a b ∈ emitted s (play_audition locked s nframes).1) ↔
        (play_audition locked s nframes).1._seeking = false)
    ∧ ∀ a b, Event.AuditionProgress a b ∈ emitted s (play_audition locked s nframes).1 →
        a = (play_audition locked s nframes).1.current_frame
              - (play_audition locked s nframes).1._import_position
          ∧ b = (play_audition locked s nframes).1.length := by
  have hc := countP_progress_roll_events locked s._queue_panic s._processors
    (to_pframes_t (this_nframes s nframes)) s.current_frame (s.current_frame + nframes)
  rw [emitted_play_audition locked s nframes haud, play_audition_eq locked s nframes haud]
  refine ⟨?_, ?_, ?_⟩
  · by_cases h1 : resumes s <;> by_cases h2 : starts_seek s <;>
      by_cases h3 : at_end s nframes <;> by_cases h4 : seeking_now s <;>
      simp [tick_events, tick_state, h1, h2, h3, h4, List.countP_append, hc,
        Event.is_progress, List.countP_cons]
  · by_cases h1 : resumes s <;> by_cases h2 : starts_seek s <;>
      by_cases h3 : at_end s nframes <;> by_cases h4 : seeking_now s <;>
      simp [tick_events, tick_state, h1, h2, h3, h4, mem_roll_events, panic_messages]
  · intro a b
    by_cases h1 : resumes s <;> by_cases h2 : starts_seek s <;>
      by_cases h3 : at_end s nframes <;> by_cases h4 : seeking_now s <;>
      simp [tick_events, tick_state, h1, h2, h3, h4, mem_roll_events, panic_messages]

/-- Witness of C19 on the playing example. -/
theorem play_audition_progress_witness :
    playing_example._auditioning ≠ 0
    ∧ (emitted playing_example (play_audition true playing_example 30).1).countP
        Event.is_progress
        = (if (play_audition true playing_example 30).1._seeking then 0 else 1) :=
  ⟨by decide, (play_audition_progress true playing_example 30 (by decide)).1⟩

/-! ## Claims about the synth lookup -/

/-- C20: with a non-empty configured identifier, `lookup_synth` fills the
slot with a plugin insert of the first of the configured identifier,
gmsynth and Reasonable Synth that `find_plugin` resolves (and leaves it
empty when none does), and its `find_plugin` calls are, in order, the
candidates up to and including the first that resolves: a later candidate
is queried only if every earlier one failed. -/
theorem lookup_synth_first_resolved (env : Env) (s : Auditioner)
    (h : s.config.midi_audition_synth_uri ≠ "") :
    (lookup_synth env s).asynth
        = ((candidates s.config).find? env.find_plugin).map
            (Processor.plugin_insert s.next_serial)
    ∧ (emitted s (lookup_synth env s)).filterMap Event.find_plugin_uri
        = queried env.find_plugin (candidates s.config) := by
  refine ⟨?_, ?_⟩
  · unfold lookup_synth find_plugin candidates
    cases h1 : env.find_plugin s.config.midi_audition_synth_uri <;>
    cases h2 : env.find_plugin "http://gareus.org/oss/lv2/gmsynth" <;>
    cases h3 : env.find_plugin "https://community.ardour.org/node/7596" <;>
    simp [h, h1, h2, h3, Auditioner.emit, List.find?]
  · have hl : emitted s (lookup_synth env s) = lookup_events env s.config := by
      simp [emitted, lookup_synth_log]
    rw [hl]
    unfold lookup_events candidates
    cases h1 : env.find_plugin s.config.midi_audition_synth_uri <;>
    cases h2 : env.find_plugin "http://gareus.org/oss/lv2/gmsynth" <;>
    cases h3 : env.find_plugin "https://community.ardour.org/node/7596" <;>
    simp [h, h1, h2, h3, queried, Event.find_plugin_uri, List.filterMap]

/-- Witness of C20: the configured synth is missing, gmsynth is missing,
Reasonable Synth resolves. -/
theorem lookup_synth_first_resolved_witness :
    (Auditioner.construct config_missing_synth []).config.midi_audition_synth_uri ≠ ""
    ∧ (lookup_synth env_only_reasonable (Auditioner.construct config_missing_synth [])).asynth
        = ((candidates (Auditioner.construct config_missing_synth []).config).find?
            env_only_reasonable.find_plugin).map
            (Processor.plugin_insert (Auditioner.construct config_missing_synth []).next_serial)
    ∧ (lookup_synth env_only_reasonable (Auditioner.construct config_missing_synth [])).asynth
        = some (Processor.plugin_insert 0 "https://community.ardour.org/node/7596") :=
  ⟨by decide,
    (lookup_synth_first_resolved env_only_reasonable
      (Auditioner.construct config_missing_synth []) (by decide)).1,
    by decide⟩

theorem lookup_synth_empty (env : Env) (s : Auditioner)
    (h : s.config.midi_audition_synth_uri = "") :
    lookup_synth env s = { s with asynth := none } := by
  simp [lookup_synth, h]

theorem lookup_again_empty (envs : List Env) (s : Auditioner)
    (h : s.config.midi_audition_synth_uri = "") :
    (lookup_again envs s).config = s.config ∧ (lookup_again envs s).log = s.log
    ∧ (envs ≠ [] → (lookup_again envs s).asynth = none) := by
  induction envs generalizing s with
  | nil => simp [lookup_again]
  | cons e es ih =>
    have he := lookup_synth_empty e s h
    obtain ⟨i1, i2, i3⟩ := ih (lookup_synth e s) (by rw [he]; exact h)
    unfold lookup_again at i1 i2 i3 ⊢
    simp only [List.foldl_cons]
    refine ⟨?_, ?_, ?_⟩
    · rw [i1, he]
    · rw [i2, he]
    · intro _
      cases es with
      | nil => simp [he]
      | cons e2 es2 => exact i3 (by simp)

theorem find_plugin_not_mem_stage_events (env : Env) (s : Auditioner) (r : Region) (u : String)
    (h : s.config.midi_audition_synth_uri = "") :
    Event.find_plugin_call u ∉ stage_events env s r := by
  unfold stage_events
  cases hkind : r.kind
  · by_cases ha : s._synth_added <;>
      by_cases hc : env.configure_processors_rv = 0 <;>
      simp [ha, hc, finish_events, configure_error]
  · have h1 : Event.find_plugin_call u ∉ midi_setup_events env s := by
      unfold midi_setup_events lookup_events
      split_ifs <;> simp_all
    have h2 : ∀ t, Event.find_plugin_call u ∉ midi_insert_events env t := by
      intro t
      unfold midi_insert_events
      split
      · split_ifs <;> simp
      · simp
    by_cases hc : env.configure_processors_rv = 0 <;>
      simp [h1, h2, hc, finish_events, configure_error]
  · simp

/-! ## Claims about an unconfigured or unresolvable synth -/

/-- C21 (counterexample): with an empty configured identifier and an
environment in which every plugin resolves, `lookup_synth` makes no
`find_plugin` call and leaves the synth slot empty: no fallback is tried. -/
theorem lookup_unconfigured_tries_no_fallback :
    (Auditioner.construct ⟨"", "", ""⟩ [Processor.delivery]).config.midi_audition_synth_uri = ""
    ∧ env_ok.find_plugin "http://gareus.org/oss/lv2/gmsynth" = true
    ∧ env_ok.find_plugin "https://community.ardour.org/node/7596" = true
    ∧ (lookup_synth env_ok (Auditioner.construct ⟨"", "", ""⟩ [Processor.delivery])).asynth
        = none
    ∧ emitted (Auditioner.construct ⟨"", "", ""⟩ [Processor.delivery])
        (lookup_synth env_ok (Auditioner.construct ⟨"", "", ""⟩ [Processor.delivery])) = [] := by
  decide

/-- C21 (amended): when the configured identifier is empty, `lookup_synth`
applies no resolution order: it makes no `find_plugin` call, emits nothing,
and only empties the synth slot, whatever the environment would resolve. -/
theorem lookup_synth_unconfigured (env : Env) (s : Auditioner)
    (h : s.config.midi_audition_synth_uri = "") :
    lookup_synth env s = { s with asynth := none }
    ∧ (lookup_synth env s).asynth = none
    ∧ emitted s (lookup_synth env s) = [] := by
  have he := lookup_synth_empty env s h
  refine ⟨he, ?_, ?_⟩
  · rw [he]
  · rw [he]
    simp [emitted]

/-- Witness of C21 (amended) on the fresh auditioner without a configured
synth. -/
theorem lookup_synth_unconfigured_witness :
    fresh_without_synth.config.midi_audition_synth_uri = ""
    ∧ (lookup_synth env_ok fresh_without_synth).asynth = none
    ∧ emitted fresh_without_synth (lookup_synth env_ok fresh_without_synth) = [] :=
  ⟨by decide, (lookup_synth_unconfigured env_ok fresh_without_synth (by decide)).2.1,
    (lookup_synth_unconfigured env_ok fresh_without_synth (by decide)).2.2⟩

/-- C22: when a configured identifier and both fallbacks fail to resolve,
`lookup_synth` leaves the synth slot empty, emits the warning and stores the
empty identifier in the configuration; from then on, as long as the
configured identifier stays empty, further `lookup_synth` calls, in whatever
environment, make no `find_plugin` call and leave the slot empty, and no
`audition_region` call makes a `find_plugin` call either. -/
theorem lookup_synth_gives_up (env : Env) (s : Auditioner)
    (h0 : s.config.midi_audition_synth_uri ≠ "")
    (h1 : env.find_plugin s.config.midi_audition_synth_uri = false)
    (h2 : env.find_plugin "http://gareus.org/oss/lv2/gmsynth" = false)
    (h3 : env.find_plugin "https://community.ardour.org/node/7596" = false) :
    (lookup_synth env s).asynth = none
    ∧ Event.warning_msg "No synth for midi-audition found." ∈ emitted s (lookup_synth env s)
    ∧ (lookup_synth env s).config.midi_audition_synth_uri = ""
    ∧ (∀ envs : List Env,
        emitted (lookup_synth env s) (lookup_again envs (lookup_synth env s)) = []
        ∧ (lookup_again envs (lookup_synth env s)).asynth = none
        ∧ (lookup_again envs (lookup_synth env s)).config.midi_audition_synth_uri = "")
    ∧ (∀ (env2 : Env) (t : Auditioner) (r : Region) (u : String),
        t.config = (lookup_synth env s).config →
        Event.find_plugin_call u ∉ emitted t (audition_region env2 t r)) := by
  have ha : (lookup_synth env s).asynth = none := by
    unfold lookup_synth find_plugin
    simp [h0, h1, h2, h3, Auditioner.emit]
  have hc : (lookup_synth env s).config.midi_audition_synth_uri = "" := by
    unfold lookup_synth find_plugin
    simp [h0, h1, h2, h3, Auditioner.emit]
  refine ⟨ha, ?_, hc, ?_, ?_⟩
  · have hl : emitted s (lookup_synth env s) = lookup_events env s.config := by
      simp [emitted, lookup_synth_log]
    rw [hl]
    simp [lookup_events, h0, h1, h2, h3]
  · intro envs
    obtain ⟨i1, i2, i3⟩ := lookup_again_empty envs (lookup_synth env s) hc
    refine ⟨?_, ?_, ?_⟩
    · simp [emitted, i2]
    · cases envs with
      | nil => simpa [lookup_again] using ha
      | cons e es => exact i3 (by simp)
    · rw [i1]
      exact hc
  · intro env2 t r u ht
    rw [emitted_audition_region]
    exact find_plugin_not_mem_stage_events env2 t r u (by rw [ht]; exact hc)

/-- Witness of C22: a missing synth is configured and no plugin resolves. -/
theorem lookup_synth_gives_up_witness :
    (Auditioner.construct config_missing_synth []).config.midi_audition_synth_uri ≠ ""
    ∧ env_no_plugins.find_plugin
        (Auditioner.construct config_missing_synth []).config.midi_audition_synth_uri = false
    ∧ env_no_plugins.find_plugin "http://gareus.org/oss/lv2/gmsynth" = false
    ∧ env_no_plugins.find_plugin "https://community.ardour.org/node/7596" = false
    ∧ (lookup_synth env_no_plugins (Auditioner.construct config_missing_synth [])).asynth = none
    ∧ (lookup_synth env_no_plugins
        (Auditioner.construct config_missing_synth [])).config.midi_audition_synth_uri = "" :=
  ⟨by decide, rfl, rfl, rfl,
    (lookup_synth_gives_up env_no_plugins (Auditioner.construct config_missing_synth [])
      (by decide) rfl rfl rfl).1,
    (lookup_synth_gives_up env_no_plugins (Auditioner.construct config_missing_synth [])
      (by decide) rfl rfl rfl).2.2.1⟩

/-! ## Claims about a failed insertion and about staging twice -/

theorem midi_insert_synth_added (env : Env) (s : Auditioner) :
    (audition_region_midi_insert env s)._synth_added
      = (s._synth_added || (s.asynth.isSome && decide (env.add_processor_rv = 0))) := by
  unfold audition_region_midi_insert add_processor
  cases h1 : s.asynth <;> cases h2 : s._synth_added <;>
    by_cases h3 : env.add_processor_rv = 0 <;>
    simp [h2, h3, Auditioner.emit]

theorem midi_setup_synth_added (env : Env) (s : Auditioner) (r : Region) :
    (audition_region_midi_setup env s r)._synth_added
      = (s._synth_added && !s._synth_changed) := by
  unfold audition_region_midi_setup
  cases h1 : s._synth_changed <;> cases h2 : s._synth_added <;>
    simp [h1, h2, Auditioner.emit, remove_processor, lookup_synth_synth_added]

/-- C24: when staging a MIDI region reaches `add_processor`, the insertion
fails (non-zero return) and `configure_processors` succeeds,
`audition_region` emits the diagnostic "Failed to load synth for
MIDI-Audition.", leaves `_synth_added` false and starts playback
(`_auditioning = 1`). -/
theorem failed_insert_still_plays (env : Env) (s : Auditioner) (r : Region)
    (hk : r.kind = RegionKind.midi) (hins : inserts_synth env s = true)
    (hadd : env.add_processor_rv ≠ 0) (hcfg : env.configure_processors_rv = 0) :
    Event.error_msg "Failed to load synth for MIDI-Audition."
        ∈ emitted s (audition_region env s r)
    ∧ (audition_region env s r)._synth_added = false
    ∧ (audition_region env s r)._auditioning = 1
    ∧ phase (audition_region env s r) = TransportPhase.Playing := by
  have hkind : r.kind ≠ RegionKind.other := by
    rw [hk]
    decide
  obtain ⟨f1, f2, f3, _, _, _⟩ := audition_region_ok_fields env s r hkind hcfg
  have hins0 : inserts_synth env { s with _auditioning := 0 } = true := hins
  have hsetup := midi_setup_inserts env { s with _auditioning := 0 } r
  rw [hins0] at hsetup
  simp only [Bool.and_eq_true, Bool.not_eq_true', Option.isSome_iff_exists] at hsetup
  obtain ⟨⟨p, hp⟩, hnot⟩ := hsetup
  refine ⟨?_, ?_, f1, ?_⟩
  · rw [emitted_audition_region]
    simp [stage_events, hk, midi_insert_events, hp, hnot, hadd]
  · unfold audition_region
    rw [cancel_if_auditioning]
    simp only [hk, audition_region_midi, configure_processors, hcfg, ne_eq, not_true_eq_false,
      if_false]
    rw [audition_region_start_synth_added]
    simp [Auditioner.emit, midi_insert_synth_added, hnot, hp, hadd]
  · simp [phase, f1, f2, f3]

/-- Witness of C24: the MIDI example staged on the fresh auditioner whose
slot is filled, in an environment where `add_processor` fails. -/
theorem failed_insert_still_plays_witness :
    midi_example.kind = RegionKind.midi ∧ inserts_synth env_add_fails fresh_with_synth = true
    ∧ env_add_fails.add_processor_rv ≠ 0 ∧ env_add_fails.configure_processors_rv = 0
    ∧ (audition_region env_add_fails fresh_with_synth midi_example)._synth_added = false
    ∧ (audition_region env_add_fails fresh_with_synth midi_example)._auditioning = 1 :=
  ⟨rfl, by decide, by decide, rfl,
    (failed_insert_still_plays env_add_fails fresh_with_synth midi_example rfl (by decide)
      (by decide) rfl).2.1,
    (failed_insert_still_plays env_add_fails fresh_with_synth midi_example rfl (by decide)
      (by decide) rfl).2.2.1⟩

theorem midi_setup_import_position (env : Env) (s : Auditioner) (r : Region) :
    (audition_region_midi_setup env s r)._import_position = r.position :=
  (midi_setup_staged env s r).2.2

/-- The window after `audition_region`, in its three outcomes: untouched
for an unsupported region, only the import offset written when
`configure_processors` fails, the window of the region on success. -/
theorem audition_region_window (env : Env) (s : Auditioner) (r : Region) :
    window (audition_region env s r)
      = if r.kind = RegionKind.other then window s
        else if env.configure_processors_rv ≠ 0 then
          (s.current_frame, s.length, if r.kind = RegionKind.midi then r.position else 0)
        else
          (start_offset r, r.length, if r.kind = RegionKind.midi then r.position else 0) := by
  by_cases hk : r.kind = RegionKind.other
  · simp only [hk, if_true]
    unfold audition_region
    rw [cancel_if_auditioning]
    simp [hk, Auditioner.emit, window]
  · by_cases hcfg : env.configure_processors_rv = 0
    · obtain ⟨_, _, _, f4, f5, f6⟩ := audition_region_ok_fields env s r hk hcfg
      simp only [hk, if_false, hcfg, ne_eq, not_true_eq_false, window, f4, f5, f6]
      rfl
    · simp only [hk, if_false, ne_eq, hcfg, not_false_eq_true, if_true]
      unfold audition_region
      rw [cancel_if_auditioning]
      cases hkind : r.kind
      · cases ha : s._synth_added <;>
          simp [audition_region_audio, configure_processors, hcfg, ha, Auditioner.emit,
            remove_processor, window]
      · obtain ⟨_, a2, a3⟩ := midi_setup_window env { s with _auditioning := 0 } r
        obtain ⟨_, b2, b3⟩ := midi_insert_window env
          (audition_region_midi_setup env { s with _auditioning := 0 } r)
        obtain ⟨_, _, c3⟩ := midi_insert_staged env
          (audition_region_midi_setup env { s with _auditioning := 0 } r)
        simp [audition_region_midi, configure_processors, hcfg, Auditioner.emit, window, a2,
          a3, b2, b3, c3, midi_setup_import_position]
      · exact absurd hkind hk

/-- C25: staging the same region twice in a row leaves, after the second
call, the playback window (`current_frame`, `length`, `_import_position`)
that the first call left: in the same environment always, and for any
environment of the second call when the first call succeeded. -/
theorem stage_twice_same_window (env env2 : Env) (s : Auditioner) (r : Region) :
    window (audition_region env (audition_region env s r) r)
        = window (audition_region env s r)
    ∧ (env.configure_processors_rv = 0 →
        window (audition_region env2 (audition_region env s r) r)
          = window (audition_region env s r)) := by
  have h1 := audition_region_window env s r
  have h2 := audition_region_window env (audition_region env s r) r
  have h3 := audition_region_window env2 (audition_region env s r) r
  have hw : ∀ t : Auditioner, window t = (t.current_frame, t.length, t._import_position) :=
    fun _ => rfl
  refine ⟨?_, ?_⟩
  · rw [h2]
    by_cases hk : r.kind = RegionKind.other
    · simp [hk]
    · by_cases hcfg : env.configure_processors_rv = 0
      · simp [hk, hcfg, h1]
      · simp only [hk, if_false, ne_eq, hcfg, not_false_eq_true, if_true] at h1 ⊢
        rw [hw] at h1
        simp only [Prod.mk.injEq] at h1
        obtain ⟨e1, e2, e3⟩ := h1
        rw [hw, e1, e2, e3]
  · intro hcfg
    rw [h3]
    by_cases hk : r.kind = RegionKind.other
    · simp [hk]
    · simp only [hk, if_false, hcfg, ne_eq, not_true_eq_false] at h1 ⊢
      rw [hw] at h1
      simp only [Prod.mk.injEq] at h1
      obtain ⟨e1, e2, e3⟩ := h1
      by_cases hcfg2 : env2.configure_processors_rv = 0
      · simp only [hcfg2, not_true_eq_false, if_false]
        rw [hw, e1, e2, e3]
      · simp only [hcfg2, not_false_eq_true, if_true]
        rw [hw, e1, e2, e3]

/-- Witness of C25: the MIDI example staged twice on the fresh auditioner,
the second time in an environment where `configure_processors` fails. -/
theorem stage_twice_same_window_witness :
    env_ok.configure_processors_rv = 0
    ∧ window (audition_region env_configure_fails
          (audition_region env_ok fresh_with_synth midi_example) midi_example)
        = window (audition_region env_ok fresh_with_synth midi_example) :=
  ⟨rfl,
    (stage_twice_same_window env_ok env_configure_fails fresh_with_synth midi_example).2 rfl⟩

/-! ## Claims about the return value of `roll` and about lost locks -/

/-- C27: `roll` returns 0 whether or not the lock is taken and whether or not
a panic is queued; hence the processing step of `play_audition` never takes
its error return, and `play_audition` returns 0 or 1. -/
theorem roll_never_fails (locked : Bool) (s : Auditioner)
    (nframes start_frame end_frame : Int) :
    (roll locked s nframes start_frame end_frame).2 = 0
    ∧ (play_audition_process locked s nframes).2 = none
    ∧ (play_audition_process locked (play_audition_resume s) nframes).2 = none
    ∧ ((play_audition locked s nframes).2 = 0 ∨ (play_audition locked s nframes).2 = 1) := by
  have hp : ∀ t : Auditioner, (play_audition_process locked t nframes).2 = none := by
    intro t
    cases h : t._seeking <;> simp [play_audition_process, roll_eq, silence, h]
  refine ⟨by rw [roll_eq], hp s, hp _, ?_⟩
  by_cases haud : s._auditioning = 0
  · left
    simp [play_audition, haud]
  · rw [play_audition_eq locked s nframes haud]
    simp only [tick_ret]
    split_ifs <;> simp

theorem play_audition_forget_output (l1 l2 : Bool) (s t : Auditioner) (nframes : Int)
    (h : forget_output s = forget_output t) :
    forget_output (play_audition l1 s nframes).1
      = forget_output (play_audition l2 t nframes).1 := by
  obtain ⟨cf, aud, len, sf, sk, sc, vm, ma, sa, sch, qp, ip, asy, tr, mr, pr, cfg, ns, lg⟩ := s
  obtain ⟨cf2, aud2, len2, sf2, sk2, sc2, vm2, ma2, sa2, sch2, qp2, ip2, asy2, tr2, mr2, pr2,
    cfg2, ns2, lg2⟩ := t
  simp only [forget_output, Auditioner.mk.injEq] at h
  obtain ⟨rfl, rfl, rfl, rfl, rfl, rfl, rfl, rfl, rfl, rfl, _, rfl, rfl, rfl, rfl, rfl, rfl,
    rfl, _⟩ := h
  by_cases haud : aud = 0
  · simp [play_audition, haud, silence, Auditioner.emit, forget_output]
  · rw [play_audition_eq l1 _ nframes haud, play_audition_eq l2 _ nframes haud]
    simp [forget_output, tick_state, at_end, starts_seek, frame_after, this_nframes,
      seek_frame_now, resumes, seeking_now]

theorem run_ticks_forget_output (nframes : Int) (locks1 locks2 : List Bool)
    (hlen : locks1.length = locks2.length) (s t : Auditioner)
    (h : forget_output s = forget_output t) :
    forget_output (run_ticks nframes locks1 s) = forget_output (run_ticks nframes locks2 t) := by
  induction locks1 generalizing locks2 s t with
  | nil =>
    cases locks2 with
    | nil => simpa [run_ticks] using h
    | cons _ _ => simp at hlen
  | cons l1 ls1 ih =>
    cases locks2 with
    | nil => simp at hlen
    | cons l2 ls2 =>
      simp only [run_ticks]
      exact ih ls2 (by simpa using hlen) _ _ (play_audition_forget_output l1 l2 s t nframes h)

/-- C29: on a playing tick (auditioning, not seeking, no seek requested)
where `roll` does not get the lock, the processing chain is not run, yet
`current_frame` advances by
`min (nframes, length + _import_position - current_frame)` exactly as with
the lock, and the progress signal is emitted for the new position; and the
position after any number of ticks does not depend on which of them lost
the lock. -/
theorem lost_lock_still_advances (s : Auditioner) (nframes : Int)
    (haud : s._auditioning ≠ 0) (hseek : s._seeking = false) (hreq : s._seek_frame < 0) :
    (play_audition false s nframes).1.current_frame
        = s.current_frame + min nframes (s.length + s._import_position - s.current_frame)
    ∧ (play_audition false s nframes).1.current_frame
        = (play_audition true s nframes).1.current_frame
    ∧ Event.AuditionProgress
        (s.current_frame + min nframes (s.length + s._import_position - s.current_frame)
          - s._import_position) s.length ∈ emitted s (play_audition false s nframes).1
    ∧ (∀ a b m, Event.process_output_buffers a b m ∉
        emitted s (play_audition false s nframes).1)
    ∧ ∀ locks1 locks2 : List Bool, locks1.length = locks2.length →
        (run_ticks nframes locks1 s).current_frame
          = (run_ticks nframes locks2 s).current_frame := by
  have hmin : s.length - s.current_frame + s._import_position
      = s.length + s._import_position - s.current_frame := by ring
  have hnow : seeking_now s = false := by simp [seeking_now, hseek]
  have hres : resumes s = false := by simp [resumes, hseek]
  have hst : starts_seek s = false := by
    simp [starts_seek, seek_frame_now, hres, hnow]
    intro h0
    omega
  refine ⟨?_, ?_, ?_, ?_, ?_⟩
  · simp [play_audition_eq false s nframes haud, tick_state, frame_after, this_nframes, hnow,
      hmin]
  · simp [play_audition_eq false s nframes haud, play_audition_eq true s nframes haud,
      tick_state]
  · rw [emitted_play_audition false s nframes haud]
    by_cases h3 : at_end s nframes <;>
      simp [tick_events, hnow, hres, hst, h3, frame_after, this_nframes, hmin]
  · intro a b m
    rw [emitted_play_audition false s nframes haud]
    by_cases h3 : at_end s nframes <;>
      simp [tick_events, hnow, hres, hst, h3, mem_roll_events]
  · intro locks1 locks2 hlen
    have := run_ticks_forget_output nframes locks1 locks2 hlen s s rfl
    have h : (forget_output (run_ticks nframes locks1 s)).current_frame
        = (forget_output (run_ticks nframes locks2 s)).current_frame := by rw [this]
    exact h

/-- Witness of C29 on the playing example. -/
theorem lost_lock_still_advances_witness :
    playing_example._auditioning ≠ 0 ∧ playing_example._seeking = false
    ∧ playing_example._seek_frame < 0
    ∧ (play_audition false playing_example 30).1.current_frame
        = (play_audition true playing_example 30).1.current_frame
    ∧ ∀ locks1 locks2 : List Bool, locks1.length = locks2.length →
        (run_ticks 30 locks1 playing_example).current_frame
          = (run_ticks 30 locks2 playing_example).current_frame :=
  ⟨by decide, rfl, by decide,
    (lost_lock_still_advances playing_example 30 (by decide) rfl (by decide)).2.1,
    (lost_lock_still_advances playing_example 30 (by decide) rfl (by decide)).2.2.2.2⟩

/-! ## Sequences of operations: the synth in the chain, the stale flag -/

theorem SynthInv_congr (s t : Auditioner) (h1 : t.asynth = s.asynth)
    (h2 : t._synth_added = s._synth_added) (h3 : t._processors = s._processors)
    (h : SynthInv s) : SynthInv t := by
  unfold SynthInv chain_synths at h ⊢
  rw [h1, h2, h3]
  exact h

theorem SynthInv_removed (s : Auditioner) (h : SynthInv s) (hadded : s._synth_added = true) :
    SynthInv { remove_processor s.asynth s with _synth_added := false } := by
  obtain ⟨h1, h2, h3⟩ := h
  obtain ⟨p, hp⟩ := Option.isSome_iff_exists.1 (h2 hadded)
  refine ⟨?_, by simp, ?_⟩
  · simp only [chain_synths, remove_processor, Auditioner.emit, hp] at h1 ⊢
    simp only [hadded, if_true, Option.toList] at h1
    rw [List.filter_filter]
    have : (s._processors.filter fun a => is_plugin_insert a && decide (some a ≠ some p))
        = (s._processors.filter is_plugin_insert).filter (fun a => decide (some a ≠ some p)) := by
      rw [List.filter_filter]
      congr 1
      funext a
      exact Bool.and_comm _ _
    rw [this, h1]
    simp
  · intro q hq
    exact h3 q (by simpa [remove_processor, Auditioner.emit] using hq)

theorem lookup_synth_asynth_plugin (env : Env) (s : Auditioner) (p : Processor)
    (h : (lookup_synth env s).asynth = some p) : is_plugin_insert p = true := by
  unfold lookup_synth find_plugin at h
  by_cases h0 : s.config.midi_audition_synth_uri = ""
  · simp [h0] at h
  · cases h1 : env.find_plugin s.config.midi_audition_synth_uri <;>
    cases h2 : env.find_plugin "http://gareus.org/oss/lv2/gmsynth" <;>
    cases h3 : env.find_plugin "https://community.ardour.org/node/7596" <;>
    simp [h0, h1, h2, h3, Auditioner.emit] at h <;>
    (subst h; rfl)

theorem lookup_synth_processors (env : Env) (s : Auditioner) :
    (lookup_synth env s)._processors = s._processors := by
  rw [lookup_synth_frame]

theorem lookup_synth_synth_changed (env : Env) (s : Auditioner) :
    (lookup_synth env s)._synth_changed = s._synth_changed := by
  rw [lookup_synth_frame]

theorem SynthInv_lookup (env : Env) (s : Auditioner) (h : SynthInv s)
    (hadded : s._synth_added = false) : SynthInv (lookup_synth env s) := by
  obtain ⟨h1, _, _⟩ := h
  refine ⟨?_, ?_, ?_⟩
  · simp only [chain_synths, lookup_synth_processors, lookup_synth_synth_added, hadded] at h1 ⊢
    simpa using h1
  · intro h0
    rw [lookup_synth_synth_added, hadded] at h0
    exact absurd h0 (by decide)
  · intro p hp
    exact lookup_synth_asynth_plugin env s p hp

theorem midi_setup_processors (env : Env) (s : Auditioner) (r : Region) :
    (audition_region_midi_setup env s r)._processors
      = if s._synth_changed && s._synth_added then
          s._processors.filter (fun q => decide (some q ≠ s.asynth))
        else s._processors := by
  unfold audition_region_midi_setup
  cases h1 : s._synth_changed <;> cases h2 : s._synth_added <;>
    simp [h1, h2, Auditioner.emit, remove_processor, lookup_synth_processors]

theorem midi_setup_asynth_kept (env : Env) (s : Auditioner) (r : Region)
    (h : s._synth_changed = false) :
    (audition_region_midi_setup env s r).asynth = s.asynth := by
  unfold audition_region_midi_setup
  simp [h, Auditioner.emit]

theorem midi_setup_asynth_plugin (env : Env) (s : Auditioner) (r : Region)
    (h : s._synth_changed = true) (p : Processor)
    (hp : (audition_region_midi_setup env s r).asynth = some p) :
    is_plugin_insert p = true := by
  unfold audition_region_midi_setup at hp
  cases h2 : s._synth_added <;> simp [h, h2, Auditioner.emit, remove_processor] at hp <;>
    exact lookup_synth_asynth_plugin _ _ _ hp

theorem midi_setup_synth_changed (env : Env) (s : Auditioner) (r : Region) :
    (audition_region_midi_setup env s r)._synth_changed = s._synth_changed := by
  unfold audition_region_midi_setup
  cases h1 : s._synth_changed <;> cases h2 : s._synth_added <;>
    simp [h1, h2, Auditioner.emit, remove_processor, lookup_synth_synth_changed]

theorem SynthInv_midi_setup (env : Env) (s : Auditioner) (r : Region) (h : SynthInv s) :
    SynthInv (audition_region_midi_setup env s r) := by
  cases hc : s._synth_changed
  · refine SynthInv_congr s _ (midi_setup_asynth_kept env s r hc) ?_ ?_ h
    · rw [midi_setup_synth_added, hc]
      simp
    · rw [midi_setup_processors, hc]
      simp
  · have hadd : (audition_region_midi_setup env s r)._synth_added = false := by
      rw [midi_setup_synth_added, hc]
      simp
    refine ⟨?_, ?_, ?_⟩
    · simp only [hadd, chain_synths, midi_setup_processors, hc, Bool.true_and]
      cases ha : s._synth_added
      · have h1 := h.1
        simp only [chain_synths, ha] at h1
        simpa using h1
      · have h1 := (SynthInv_removed s h ha).1
        simpa [chain_synths, remove_processor, Auditioner.emit] using h1
    · intro h0
      rw [hadd] at h0
      exact absurd h0 (by decide)
    · exact midi_setup_asynth_plugin env s r hc

theorem midi_insert_chain (env : Env) (s : Auditioner) :
    (audition_region_midi_insert env s).asynth = s.asynth
    ∧ (audition_region_midi_insert env s)._synth_changed = s._synth_changed
    ∧ (audition_region_midi_insert env s)._processors
      = (if s._synth_added = false ∧ env.add_processor_rv = 0 then
          s.asynth.toList ++ s._processors
        else s._processors) := by
  unfold audition_region_midi_insert add_processor
  cases h1 : s.asynth <;> cases h2 : s._synth_added <;>
    by_cases h3 : env.add_processor_rv = 0 <;>
    simp [h1, h2, h3, Auditioner.emit]

theorem SynthInv_midi_insert (env : Env) (s : Auditioner) (h : SynthInv s) :
    SynthInv (audition_region_midi_insert env s) := by
  obtain ⟨c1, _, c3⟩ := midi_insert_chain env s
  obtain ⟨h1, h2, h3⟩ := h
  by_cases hins : s._synth_added = false ∧ env.add_processor_rv = 0
  · obtain ⟨ha, hrv⟩ := hins
    refine ⟨?_, ?_, ?_⟩
    · simp only [chain_synths, c3, ha, hrv, and_self, if_true, c1, midi_insert_synth_added,
        Bool.false_or, decide_True, Bool.and_true] at h1 ⊢
      cases hs : s.asynth with
      | none => simpa [hs] using h1
      | some p =>
        have hp := h3 p hs
        simp only [hs, Option.toList, List.singleton_append, Option.isSome_some, if_true]
        rw [List.filter_cons_of_pos hp]
        simpa using h1
    · intro h0
      rw [c1]
      simpa [midi_insert_synth_added, ha, hrv] using h0
    · intro p hp
      exact h3 p (by rw [← c1]; exact hp)
  · refine SynthInv_congr s _ c1 ?_ ?_ ⟨h1, h2, h3⟩
    · rw [midi_insert_synth_added]
      cases ha : s._synth_added
      · have hrv : ¬ env.add_processor_rv = 0 := fun h0 => hins ⟨ha, h0⟩
        simp [hrv]
      · simp
    · rw [c3]
      simp [hins]

theorem audition_region_start_asynth (s : Auditioner) :
    (audition_region_start s).asynth = s.asynth
    ∧ (audition_region_start s)._synth_changed = s._synth_changed := by
  unfold audition_region_start
  simp only []
  split <;> simp [Auditioner.emit]

theorem SynthInv_audio (env : Env) (s : Auditioner) (r : Region) (h : SynthInv s) :
    SynthInv (audition_region_audio env s r) := by
  have hrem : s._synth_added = true → SynthInv
      { remove_processor s.asynth { s with _midi_audition := false } with
        _synth_added := false } := by
    intro ha
    exact SynthInv_congr _ _ rfl rfl rfl (SynthInv_removed s h ha)
  unfold audition_region_audio configure_processors
  by_cases hcfg : env.configure_processors_rv = 0
  · cases ha : s._synth_added
    · refine SynthInv_congr s _ ?_ ?_ ?_ h <;>
        simp [hcfg, ha, audition_region_start_asynth, audition_region_start_synth_added,
          audition_region_start_processors, Auditioner.emit]
    · refine SynthInv_congr _ _ ?_ ?_ ?_ (hrem ha) <;>
        simp [hcfg, ha, audition_region_start_asynth, audition_region_start_synth_added,
          audition_region_start_processors, Auditioner.emit, remove_processor]
  · cases ha : s._synth_added
    · refine SynthInv_congr s _ ?_ ?_ ?_ h <;> simp [hcfg, ha, Auditioner.emit]
    · refine SynthInv_congr _ _ ?_ ?_ ?_ (hrem ha) <;>
        simp [hcfg, ha, Auditioner.emit, remove_processor]

theorem SynthInv_midi (env : Env) (s : Auditioner) (r : Region) (h : SynthInv s) :
    SynthInv (audition_region_midi env s r) := by
  have hi := SynthInv_midi_insert env _ (SynthInv_midi_setup env s r h)
  unfold audition_region_midi configure_processors
  by_cases hcfg : env.configure_processors_rv = 0
  · refine SynthInv_congr _ _ ?_ ?_ ?_ hi <;>
      simp [hcfg, audition_region_start_asynth, audition_region_start_synth_added,
        audition_region_start_processors, Auditioner.emit]
  · refine SynthInv_congr _ _ ?_ ?_ ?_ hi <;> simp [hcfg, Auditioner.emit]

theorem SynthInv_audition_region (env : Env) (s : Auditioner) (r : Region) (h : SynthInv s) :
    SynthInv (audition_region env s r) := by
  have h0 : SynthInv { s with _auditioning := 0 } := SynthInv_congr s _ rfl rfl rfl h
  unfold audition_region
  rw [cancel_if_auditioning]
  cases hk : r.kind
  · exact SynthInv_audio env _ r h0
  · exact SynthInv_midi env _ r h0
  · exact SynthInv_congr _ _ rfl rfl rfl h0

theorem play_audition_chain (locked : Bool) (s : Auditioner) (nframes : Int) :
    (play_audition locked s nframes).1.asynth = s.asynth
    ∧ (play_audition locked s nframes).1._synth_added = s._synth_added
    ∧ (play_audition locked s nframes).1._processors = s._processors
    ∧ (play_audition locked s nframes).1._synth_changed = s._synth_changed := by
  by_cases haud : s._auditioning = 0
  · rw [play_audition_idle locked s nframes haud]
    simp [silence, Auditioner.emit]
  · rw [play_audition_eq locked s nframes haud]
    simp [tick_state]

theorem SynthInv_apply_op (s : Auditioner) (op : Op) (h : SynthInv s) :
    SynthInv (apply_op s op) := by
  cases op with
  | stage env r => exact SynthInv_audition_region env s r h
  | prepare =>
    simp only [apply_op, prepare_playlist]
    cases ha : s._synth_added
    · refine SynthInv_congr s _ ?_ ?_ ?_ h <;> simp [ha]
    · refine SynthInv_congr _ _ ?_ ?_ ?_ (SynthInv_removed s h ha) <;>
        simp [ha, remove_processor, Auditioner.emit]
  | config p =>
    simp only [apply_op, config_changed]
    split
    · exact SynthInv_congr s _ rfl rfl rfl h
    · exact h
  | tick locked nframes =>
    obtain ⟨c1, c2, c3, _⟩ := play_audition_chain locked s nframes
    exact SynthInv_congr s _ c1 c2 c3 h

theorem SynthInv_run_ops (ops : List Op) (s : Auditioner) (h : SynthInv s) :
    SynthInv (run_ops ops s) := by
  induction ops generalizing s with
  | nil => exact h
  | cons op ops ih => exact ih _ (SynthInv_apply_op s op h)

theorem SynthInv_fresh (env : Env) (cfg : Config) (procs : List Processor)
    (h : ∀ p ∈ procs, is_plugin_insert p = false) :
    SynthInv (lookup_synth env (Auditioner.construct cfg procs)) := by
  apply SynthInv_lookup
  · refine ⟨?_, ?_, ?_⟩
    · simp only [chain_synths, Auditioner.construct]
      simp only [Bool.false_eq_true, if_false, List.filter_eq_nil_iff]
      intro p hp
      simp [h p hp]
    · intro h0
      simp [Auditioner.construct] at h0
    · intro p hp
      simp [Auditioner.construct] at hp
  · rfl

theorem audition_region_synth_changed (env : Env) (s : Auditioner) (r : Region) :
    (audition_region env s r)._synth_changed = s._synth_changed := by
  unfold audition_region
  rw [cancel_if_auditioning]
  cases hk : r.kind
  · simp only [audition_region_audio, configure_processors]
    by_cases hcfg : env.configure_processors_rv = 0 <;> cases ha : s._synth_added <;>
      simp [hcfg, ha, audition_region_start_asynth, Auditioner.emit, remove_processor]
  · simp only [audition_region_midi, configure_processors]
    by_cases hcfg : env.configure_processors_rv = 0 <;>
      simp [hcfg, audition_region_start_asynth, Auditioner.emit, midi_insert_chain,
        midi_setup_synth_changed]
  · simp [Auditioner.emit]

theorem apply_op_synth_changed (s : Auditioner) (op : Op) (h : s._synth_changed = true) :
    (apply_op s op)._synth_changed = true := by
  cases op with
  | stage env r =>
    simp only [apply_op]
    rw [audition_region_synth_changed]
    exact h
  | prepare =>
    simp only [apply_op, prepare_playlist]
    cases ha : s._synth_added <;> simp [ha, h, remove_processor, Auditioner.emit]
  | config p =>
    simp only [apply_op, config_changed]
    split
    · rfl
    · exact h
  | tick locked nframes =>
    simp only [apply_op]
    rw [(play_audition_chain locked s nframes).2.2.2]
    exact h

theorem run_ops_synth_changed (ops : List Op) (s : Auditioner) (h : s._synth_changed = true) :
    (run_ops ops s)._synth_changed = true := by
  induction ops generalizing s with
  | nil => exact h
  | cons op ops ih => exact ih _ (apply_op_synth_changed s op h)

theorem stale_stage_events (env : Env) (s : Auditioner) (r : Region)
    (hk : r.kind = RegionKind.midi) (hc : s._synth_changed = true) :
    emitted s (audition_region env s r)
      = Event.reset_tracker ::
          ((if s._synth_added then [Event.remove_processor_call s.asynth] else [])
            ++ lookup_events env s.config
            ++ (midi_insert_events env
                  (audition_region_midi_setup env { s with _auditioning := 0 } r)
                ++ finish_events env r)) := by
  rw [emitted_audition_region]
  simp [stage_events, hk, midi_setup_events, hc, List.append_assoc]

/-! ## Claims about sequences of operations -/

/-- C23: from a state in which the bookkeeping of the synth is right (as in a
fresh auditioner), after every sequence of `audition_region`,
`prepare_playlist`, `config_changed` and `play_audition` calls the chain
holds at most one plugin insert; when `_synth_added` is set the slot is
filled and its synth is in the chain exactly once, and when it is clear no
plugin insert is in the chain.  A MIDI stage that finds a stale inserted
synth calls `remove_processor` on it before any `find_plugin` call of
`lookup_synth`. -/
theorem synth_in_chain_at_most_once (ops : List Op) (s : Auditioner) (h : SynthInv s)
    (env : Env) (r : Region) (p : Processor) :
    (chain_synths (run_ops ops s)).length ≤ 1
    ∧ ((run_ops ops s)._synth_added = true →
        ∃ q, (run_ops ops s).asynth = some q ∧ (run_ops ops s)._processors.count q = 1)
    ∧ ((run_ops ops s)._synth_added = false →
        ∀ q, is_plugin_insert q = true → q ∉ (run_ops ops s)._processors)
    ∧ (r.kind = RegionKind.midi → (run_ops ops s)._synth_changed = true →
        (run_ops ops s)._synth_added = true → (run_ops ops s).asynth = some p →
        ∃ rest, emitted (run_ops ops s) (audition_region env (run_ops ops s) r)
          = Event.reset_tracker :: Event.remove_processor_call (some p)
              :: (lookup_events env (run_ops ops s).config ++ rest)) := by
  obtain ⟨h1, h2, h3⟩ := SynthInv_run_ops ops s h
  refine ⟨?_, ?_, ?_, ?_⟩
  · rw [h1]
    split
    · cases (run_ops ops s).asynth <;> simp
    · simp
  · intro ha
    obtain ⟨q, hq⟩ := Option.isSome_iff_exists.1 (h2 ha)
    refine ⟨q, hq, ?_⟩
    have hpi := h3 q hq
    rw [← List.count_filter hpi]
    simp only [chain_synths, ha, if_true, hq, Option.toList] at h1
    rw [h1]
    simp
  · intro ha q hpi hmem
    have : q ∈ chain_synths (run_ops ops s) := by
      simp only [chain_synths, List.mem_filter]
      exact ⟨hmem, hpi⟩
    rw [h1] at this
    simp [ha] at this
  · intro hk hc ha hp
    refine ⟨midi_insert_events env
        (audition_region_midi_setup env { run_ops ops s with _auditioning := 0 } r)
      ++ finish_events env r, ?_⟩
    rw [stale_stage_events env _ r hk hc]
    simp [ha, hp]

/-- Witness of C23: the example operations on the fresh auditioner. -/
theorem synth_in_chain_at_most_once_witness :
    SynthInv fresh_with_synth
    ∧ (chain_synths (run_ops example_ops fresh_with_synth)).length ≤ 1 :=
  ⟨SynthInv_fresh env_ok _ [Processor.delivery] (by decide),
    (synth_in_chain_at_most_once example_ops fresh_with_synth
      (SynthInv_fresh env_ok _ [Processor.delivery] (by decide)) env_ok midi_example
      Processor.other).1⟩

/-- C28: `config_changed ("midi-audition-synth-uri")` sets `_synth_changed`
and any other parameter name changes nothing; once set, `_synth_changed`
stays true across every sequence of `audition_region`, `prepare_playlist`,
`config_changed` and `play_audition` calls; and every MIDI stage on such a
state calls `remove_processor` on the synth when it is inserted and then
makes the calls of `lookup_synth` again. -/
theorem stale_flag_never_cleared (s t : Auditioner) (ops : List Op) (env : Env) (r : Region)
    (p : String) :
    (config_changed s "midi-audition-synth-uri")._synth_changed = true
    ∧ (p ≠ "midi-audition-synth-uri" → config_changed s p = s)
    ∧ (run_ops ops (config_changed s "midi-audition-synth-uri"))._synth_changed = true
    ∧ (t._synth_changed = true → r.kind = RegionKind.midi →
        (audition_region env t r)._synth_changed = true
        ∧ (t._synth_added = true →
            Event.remove_processor_call t.asynth ∈ emitted t (audition_region env t r))
        ∧ (t.config.midi_audition_synth_uri ≠ "" →
            Event.find_plugin_call t.config.midi_audition_synth_uri
              ∈ emitted t (audition_region env t r))
        ∧ ∃ rest, emitted t (audition_region env t r)
            = Event.reset_tracker ::
                ((if t._synth_added then [Event.remove_processor_call t.asynth] else [])
                  ++ lookup_events env t.config ++ rest)) := by
  have h1 : (config_changed s "midi-audition-synth-uri")._synth_changed = true := by
    simp [config_changed]
  refine ⟨h1, ?_, run_ops_synth_changed ops _ h1, ?_⟩
  · intro hp
    simp [config_changed, hp]
  · intro hc hk
    have he := stale_stage_events env t r hk hc
    refine ⟨?_, ?_, ?_, _, he⟩
    · rw [audition_region_synth_changed]
      exact hc
    · intro ha
      rw [he]
      simp [ha]
    · intro hu
      rw [he]
      have : Event.find_plugin_call t.config.midi_audition_synth_uri
          ∈ lookup_events env t.config := by
        unfold lookup_events
        split_ifs <;> simp_all
      simp [this]

/-- Witness of C28: after the example operations on the state in which the
configured synth has just changed, a MIDI stage keeps the flag. -/
theorem stale_flag_never_cleared_witness :
    (config_changed fresh_with_synth "midi-audition-synth-uri")._synth_changed = true
    ∧ ("auditioner-output-left" ≠ "midi-audition-synth-uri" →
        config_changed fresh_with_synth "auditioner-output-left" = fresh_with_synth)
    ∧ (run_ops example_ops
        (config_changed fresh_with_synth "midi-audition-synth-uri"))._synth_changed = true :=
  ⟨(stale_flag_never_cleared fresh_with_synth fresh_with_synth example_ops env_ok midi_example
      "auditioner-output-left").1,
    (stale_flag_never_cleared fresh_with_synth fresh_with_synth example_ops env_ok midi_example
      "auditioner-output-left").2.1,
    (stale_flag_never_cleared fresh_with_synth fresh_with_synth example_ops env_ok midi_example
      "auditioner-output-left").2.2.1⟩

/-! ## Claim about the stored output names -/

/-- C26 (the code at the failing input): with a single physical audio output
and both audition ports connected to it, `output_changed` stores "default"
for the right output as well, although there is no second physical output;
the value stored for the right output depends on the left port, since with
the left port disconnected the same right connection is stored by name. -/
theorem output_changed_right_stale_phys :
    (output_changed true ["system:playback_1"] ["system:playback_1"] ["system:playback_1"]
        fresh_with_synth).config.auditioner_output_left = "default"
    ∧ (output_changed true ["system:playback_1"] ["system:playback_1"] ["system:playback_1"]
        fresh_with_synth).config.auditioner_output_right = "default"
    ∧ (output_changed true ["system:playback_1"] [] ["system:playback_1"]
        fresh_with_synth).config.auditioner_output_right = "system:playback_1"
    ∧ (output_changed true ["system:playback_1", "system:playback_2"] ["system:playback_1"]
        ["system:playback_1"] fresh_with_synth).config.auditioner_output_right
        = "system:playback_1"
    ∧ (output_changed true ["system:playback_1"] [] [] fresh_with_synth).config
        = { fresh_with_synth.config with
            auditioner_output_left := "", auditioner_output_right := "" }
    ∧ output_changed false ["system:playback_1"] ["system:playback_1"] ["system:playback_1"]
        fresh_with_synth = fresh_with_synth := by
  decide

/-! ## Claim about the button signals -/

theorem midi_events_alternating (events : List Bool) (b : FP8ButtonBase)
    (h : b._ignore_release = false) :
    (b.midi_events events).2.2
        = alternating b._pressed ((b.midi_events events).2.1.count true)
    ∧ (b.midi_events events).1._ignore_release = false := by
  induction events generalizing b with
  | nil => simp [FP8ButtonBase.midi_events, alternating, h]
  | cons a rest ih =>
    obtain ⟨bp, ba, bi, br⟩ := b
    simp only at h
    subst h
    cases a <;> cases bp <;>
      simp [FP8ButtonBase.midi_events, FP8ButtonBase.midi_event, alternating, ih]

theorem alternating_chain (held : Bool) (n : Nat) :
    List.Chain' (fun x y => x ≠ y) (alternating held n) := by
  induction n generalizing held with
  | zero => simp [alternating]
  | succ n ih =>
    cases n with
    | zero => simp [alternating]
    | succ m =>
      have := ih (!held)
      simp only [alternating] at this ⊢
      refine List.Chain'.cons ?_ this
      cases held <;> simp

theorem alternating_length (held : Bool) (n : Nat) : (alternating held n).length = n := by
  induction n generalizing held with
  | zero => simp [alternating]
  | succ n ih => simp [alternating, ih]

/-- C30: a `midi_event (a)` call returns true exactly when `a` differs from
the pressed state, and then `is_pressed ()` equals `a`; a call that returns
false leaves the button as it was and emits no signal; and for every
sequence of calls on a freshly constructed button the emitted signals
strictly alternate, starting with `pressed`, one signal for each call that
returned true. -/
theorem button_signals_alternate (events : List Bool) (b : FP8ButtonBase) (a : Bool) :
    ((b.midi_event a).2.1 = true ↔ a ≠ b.is_pressed)
    ∧ ((b.midi_event a).2.1 = true → (b.midi_event a).1.is_pressed = a)
    ∧ ((b.midi_event a).2.1 = false →
        (b.midi_event a).1 = b ∧ (b.midi_event a).2.2 = [])
    ∧ (FP8ButtonBase.construct.midi_events events).2.2
        = alternating false ((FP8ButtonBase.construct.midi_events events).2.1.count true)
    ∧ List.Chain' (fun x y => x ≠ y) (FP8ButtonBase.construct.midi_events events).2.2
    ∧ (FP8ButtonBase.construct.midi_events events).2.2.head? ≠ some ButtonSignal.released
    ∧ (FP8ButtonBase.construct.midi_events events).2.2.length
        = (FP8ButtonBase.construct.midi_events events).2.1.count true := by
  have halt := (midi_events_alternating events FP8ButtonBase.construct rfl).1
  have hp : FP8ButtonBase.construct._pressed = false := rfl
  rw [hp] at halt
  refine ⟨?_, ?_, ?_, halt, ?_, ?_, ?_⟩
  · obtain ⟨bp, ba, bi, br⟩ := b
    cases a <;> cases bp <;> cases bi <;>
      simp [FP8ButtonBase.midi_event, FP8ButtonBase.is_pressed]
  · obtain ⟨bp, ba, bi, br⟩ := b
    cases a <;> cases bp <;> cases bi <;>
      simp [FP8ButtonBase.midi_event, FP8ButtonBase.is_pressed]
  · obtain ⟨bp, ba, bi, br⟩ := b
    cases a <;> cases bp <;> cases bi <;>
      simp [FP8ButtonBase.midi_event]
  · rw [halt]
    exact alternating_chain _ _
  · rw [halt]
    cases (FP8ButtonBase.construct.midi_events events).2.1.count true <;> simp [alternating]
  · rw [halt, alternating_length]

/-- Witness of C30: press, press again, release, release again, press. -/
theorem button_signals_alternate_witness :
    ((FP8ButtonBase.construct.midi_event true).2.1 = true →
        (FP8ButtonBase.construct.midi_event true).1.is_pressed = true)
    ∧ (FP8ButtonBase.construct.midi_events [true, true, false, false, true]).2.1
        = [true, false, true, false, true]
    ∧ (FP8ButtonBase.construct.midi_events [true, true, false, false, true]).2.2
        = [ButtonSignal.pressed, ButtonSignal.released, ButtonSignal.pressed]
    ∧ (FP8ButtonBase.construct.midi_events [true, true, false, false, true]).2.2
        = alternating false
            ((FP8ButtonBase.construct.midi_events [true, true, false, false, true]).2.1.count
              true) :=
  ⟨(button_signals_alternate [true, true, false, false, true] FP8ButtonBase.construct true).2.1,
    by decide, by decide,
    (button_signals_alternate [true, true, false, false, true] FP8ButtonBase.construct
      true).2.2.2.1⟩

end Ardour
